import Mathlib

/-!
# Heron's fountain simulation engine — shallow embedding

This file embeds the simulation engine of `src/herons_fountain/fountain.js`
(class `Fountain`) in Lean 4 and proves properties of it.

Modelling conventions:
* JavaScript numbers are modelled as exact rationals (`ℚ`); `Math.min` /
  `Math.max` become `min` / `max` on `ℚ`.
* `Math.random()` is modelled as an oracle `rng : ℕ → ℚ` consumed through an
  index counter carried in the state (`rngIdx`); a draw reads `rng rngIdx` and
  increments the counter.  The one trigonometric use
  (`Math.cos(angle)` / `Math.sin(angle)` in `spawnSplash`) is modelled by two
  oracle draws standing for the cosine and the sine of the random angle, since
  those are transcendental in general; no theorem below depends on the values
  of any draw.
* Scene-graph objects are reduced to the data the engine reads from them:
  ports become symbolic `(vessel, port-name)` pairs (each port is a unique
  object in the source, so identity comparison `===` coincides with equality
  of the pair), the spout tip becomes a presence flag plus its world position,
  and rotations are recorded in multiples of π (the source stores radians and
  only ever adds π at flip completion).
* Purely visual work (mesh construction, tube-geometry rebuilding in
  `updateHoses`, shader uniforms, material opacity) is omitted: the engine
  state the callers observe is untouched by it.
-/

namespace HeronsFountain

/-- `clamp01 x = Math.max(0, Math.min(1, x))`, the clamping pattern used
throughout the source. -/
def clamp01 (x : ℚ) : ℚ := max 0 (min 1 x)

/-- The three container keys `'A'`, `'B'`, `'C'` of `this.containers` /
`this.waterLevels`.  Internally `A` is the open fountain bowl (spec: `Top`),
`B` the upper side tank (spec: `Basin`), `C` the lower air chamber
(spec: `Reservoir`). -/
inductive VKey
  | A
  | B
  | C
deriving DecidableEq, Repr

/-- Names of the attachment ports created in `createContainers`. -/
inductive PortName
  | left
  | right
  | top
  | bottom
  | nozzle
  | drain
deriving DecidableEq, Repr

/-- A port object `this.ports[vessel][portName]`.  Ports are unique objects in
the source, so the JS identity tests (`h.startObj === this.ports.A.drain` etc.)
are equality tests on this pair. -/
structure Port where
  vessel : VKey
  pname : PortName
deriving DecidableEq, Repr

/-- A hose record as pushed onto `this.hoses`.  `addHose` creates records with
no `startObj` / `endObj` fields (they are `undefined`, modelled `none`); the
anchored constructors always set both. -/
structure Hose where
  fromKey : VKey
  toKey : VKey
  startObj : Option Port
  endObj : Option Port
deriving DecidableEq, Repr

/-- A 3-vector over exact rationals. -/
structure Vec3 where
  x : ℚ
  y : ℚ
  z : ℚ
deriving DecidableEq, Repr

def Vec3.add (a b : Vec3) : Vec3 := ⟨a.x + b.x, a.y + b.y, a.z + b.z⟩

def Vec3.smul (c : ℚ) (a : Vec3) : Vec3 := ⟨c * a.x, c * a.y, c * a.z⟩

/-- `a.lerp(b, t)` from three.js: componentwise `a + (b - a) * t`. -/
def Vec3.lerp (a b : Vec3) (t : ℚ) : Vec3 :=
  ⟨a.x + (b.x - a.x) * t, a.y + (b.y - a.y) * t, a.z + (b.z - a.z) * t⟩

/-- A pool slot of `this.particles`: the engine-relevant fields of the particle
record and of its mesh (`mesh.visible`, `mesh.position`). -/
structure Particle where
  visible : Bool
  life : ℚ
  maxLife : ℚ
  position : Vec3
  velocity : Vec3
deriving DecidableEq, Repr

/-- An entry of `this.activeRipples`. -/
structure Ripple where
  centerX : ℚ
  centerY : ℚ
  startTime : ℚ
  strength : ℚ
deriving DecidableEq, Repr

/-- `this.bowlParams`. -/
structure BowlParams where
  bottomY : ℚ
  height : ℚ
  innerBottomR : ℚ
  innerTopR : ℚ
  absorbY : ℚ
deriving DecidableEq, Repr

/-- The record returned by `getStatus()` (percentages rounded to integers). -/
structure Status where
  containerA : ℤ
  containerB : ℤ
  containerC : ℤ
  pressure : ℤ
  isActive : Bool
deriving DecidableEq, Repr

/-- The engine state of a `Fountain` instance: every instance field the
simulation logic reads or writes, with purely visual fields omitted. -/
structure FState where
  waterA : ℚ
  waterB : ℚ
  waterC : ℚ
  airPressure : ℚ
  flowRate : ℚ
  flowIntensity : ℚ
  isActive : Bool
  isFlipping : Bool
  airLineConnected : Bool
  hoses : List Hose
  particles : List Particle
  activeRipples : List Ripple
  maxParticles : ℕ
  maxRipples : ℕ
  time : ℚ
  bowlParams : BowlParams
  spoutTipPresent : Bool
  spoutTipPos : Vec3
  sideGroupPresent : Bool
  sidePivotPresent : Bool
  sidePivotRotX : ℚ
  rng : ℕ → ℚ
  rngIdx : ℕ

/-- Dynamic read `this.waterLevels[key]`. -/
def FState.level (s : FState) : VKey → ℚ
  | VKey.A => s.waterA
  | VKey.B => s.waterB
  | VKey.C => s.waterC

/-- Dynamic write `this.waterLevels[key] = v`. -/
def FState.setLevel (s : FState) : VKey → ℚ → FState
  | VKey.A, v => { s with waterA := v }
  | VKey.B, v => { s with waterB := v }
  | VKey.C, v => { s with waterC := v }

/-- The canonical water line P1 created by `addDefaultDiagramHoses`:
bowl drain down to the bottom of the receiver `C`. -/
def drainHose : Hose :=
  ⟨VKey.A, VKey.C, some ⟨VKey.A, PortName.drain⟩, some ⟨VKey.C, PortName.bottom⟩⟩

/-- The canonical air line P2: top of `C` to top of `B`. -/
def airLineHose : Hose :=
  ⟨VKey.C, VKey.B, some ⟨VKey.C, PortName.top⟩, some ⟨VKey.B, PortName.top⟩⟩

/-- The canonical water riser P3: bottom of `B` up to the bowl nozzle. -/
def riserHose : Hose :=
  ⟨VKey.B, VKey.A, some ⟨VKey.B, PortName.bottom⟩, some ⟨VKey.A, PortName.nozzle⟩⟩

/-- `updateWaterFlow`'s test for the canonical drain path:
`h.from === 'A' && h.startObj === ports.A.drain && h.to === 'C' && h.endObj === ports.C.bottom`. -/
def hasDrainHose (hs : List Hose) : Bool :=
  hs.any fun h =>
    h.fromKey == VKey.A && h.startObj == some ⟨VKey.A, PortName.drain⟩ &&
    h.toKey == VKey.C && h.endObj == some ⟨VKey.C, PortName.bottom⟩

/-- `updateWaterFlow`'s test for the canonical riser path P3. -/
def hasRiserHose (hs : List Hose) : Bool :=
  hs.any fun h =>
    h.fromKey == VKey.B && h.startObj == some ⟨VKey.B, PortName.bottom⟩ &&
    h.toKey == VKey.A && h.endObj == some ⟨VKey.A, PortName.nozzle⟩

/-- `updateWaterFlow`'s test for the canonical air line P2. -/
def hasAirLineHose (hs : List Hose) : Bool :=
  hs.any fun h =>
    h.fromKey == VKey.C && h.startObj == some ⟨VKey.C, PortName.top⟩ &&
    h.toKey == VKey.B && h.endObj == some ⟨VKey.B, PortName.top⟩

/-- `this.particles.find(p => !p.mesh.visible)` followed by overwriting the
found slot: replaces the first invisible particle, leaving the pool unchanged
when every slot is visible. -/
def replaceFirstInvisible (newP : Particle) : List Particle → List Particle
  | [] => []
  | p :: rest =>
    if p.visible then p :: replaceFirstInvisible newP rest else newP :: rest

/-- One iteration of the spawn loop in `createFountainParticles`: look for a
free pool slot and, if one exists, fill it from the spout tip.  The seven
`Math.random()` draws (two position jitters, three tangent jitters, the speed
jitter, the lifetime) are consumed from the oracle in source order, and only
when a slot was found, as in the source. -/
def jetSpawnIter (fountainHeight : ℚ) (s : FState) : FState :=
  if s.particles.any (fun p => !p.visible) then
    let spawn := s.spoutTipPos.lerp ⟨0, s.bowlParams.absorbY, 0⟩ (22/100)
    let pos := spawn.add
      ⟨(s.rng s.rngIdx - 1/2) * (1/100), 0, (s.rng (s.rngIdx + 1) - 1/2) * (1/100)⟩
    let tangentJitter : Vec3 :=
      ⟨(s.rng (s.rngIdx + 2) - 1/2) * (2/100), (s.rng (s.rngIdx + 3) - 1/2) * (4/100),
        (s.rng (s.rngIdx + 4) - 1/2) * (2/100)⟩
    let initialVel :=
      (Vec3.smul (fountainHeight * (1 + s.rng (s.rngIdx + 5) * (3/10))) ⟨0, -1, 0⟩).add
        tangentJitter
    let newP : Particle := ⟨true, 0, 9/10 + s.rng (s.rngIdx + 6) * (8/10), pos, initialVel⟩
    { s with particles := replaceFirstInvisible newP s.particles, rngIdx := s.rngIdx + 7 }
  else s

/-- The `for` loop of `createFountainParticles`, running `n` spawn attempts. -/
def jetSpawnLoop (fountainHeight : ℚ) : ℕ → FState → FState
  | 0, s => s
  | n + 1, s => jetSpawnLoop fountainHeight n (jetSpawnIter fountainHeight s)

/-- `createFountainParticles()`.  Note the gate reads `this.airLineConnected`,
the flag assigned by step 3 of `updateWaterFlow`; when invoked from step 2 of
the same tick that flag still holds the previous tick's value. -/
def createFountainParticles (s : FState) : FState :=
  if !s.spoutTipPresent then s
  else if !s.airLineConnected then s
  else if s.airPressure ≤ 1/20 then s
  else
    let fountainHeight := 8/5 + s.airPressure * (21/5)
    let particleCount := max 25 (Int.toNat ⌊(1/2 + s.flowIntensity) * s.airPressure * 120⌋)
    jetSpawnLoop fountainHeight particleCount s

/-- The body of the `for` loop of `spawnSplash`: unlike the jet loop, the
source `return`s out of the whole function when no free slot is left.  Oracle
draws per spawned droplet: two position jitters, the cosine and sine of the
random scatter angle, the speed, and the lifetime. -/
def splashLoop (origin : Vec3) : ℕ → FState → FState
  | 0, s => s
  | n + 1, s =>
    if s.particles.any (fun p => !p.visible) then
      let pos := origin.add
        ⟨(s.rng s.rngIdx - 1/2) * (1/5), 1/50, (s.rng (s.rngIdx + 1) - 1/2) * (1/5)⟩
      let vel : Vec3 :=
        ⟨s.rng (s.rngIdx + 2) * (3/10), 4/5 + s.rng (s.rngIdx + 4) * (3/5),
          s.rng (s.rngIdx + 3) * (3/10)⟩
      let newP : Particle := ⟨true, 0, 3/10 + s.rng (s.rngIdx + 5) * (2/5), pos, vel⟩
      splashLoop origin n
        { s with particles := replaceFirstInvisible newP s.particles, rngIdx := s.rngIdx + 6 }
    else s

/-- `spawnSplash(position)`: a random burst size of 6–11, then the fill loop. -/
def spawnSplash (origin : Vec3) (s : FState) : FState :=
  splashLoop origin (6 + Int.toNat ⌊s.rng s.rngIdx * 6⌋) { s with rngIdx := s.rngIdx + 1 }

/-- The ripple recording inside `updateParticles`: `unshift` a new ripple at
the projected impact point and `pop` the oldest past capacity. -/
def pushRipple (pos : Vec3) (s : FState) : FState :=
  let uvx := max (-1) (min 1 (pos.x / s.bowlParams.innerTopR))
  let uvy := max (-1) (min 1 (pos.z / s.bowlParams.innerTopR))
  let rs := Ripple.mk uvx uvy s.time 1 :: s.activeRipples
  { s with activeRipples := if s.maxRipples < rs.length then rs.dropLast else rs }

/-- Hide pool slot `i` (`mesh.visible = false`). -/
def hideParticle (i : ℕ) (s : FState) : FState :=
  match s.particles.get? i with
  | none => s
  | some p => { s with particles := s.particles.set i { p with visible := false } }

/-- The in-place mutation at the top of `updateParticles`' loop body:
Euler position step, gravity on `velocity.y`, and the life increment. -/
def integrateParticle (dt : ℚ) (p0 : Particle) : Particle :=
  let p1 := { p0 with position := p0.position.add (Vec3.smul dt p0.velocity) }
  let p2 := { p1 with velocity := { p1.velocity with y := p1.velocity.y - (49/5) * dt } }
  { p2 with life := p2.life + dt }

/-- The water-surface absorption case (c) of `updateParticles`: within the
bowl radius at or below the surface height, spawn a splash burst, record a
ripple at the projected impact point, and hide the droplet. -/
def splashAbsorb (i : ℕ) (p : Particle) (s : FState) : FState :=
  if p.position.y ≤ s.bowlParams.absorbY ∧
      p.position.x * p.position.x + p.position.z * p.position.z ≤
        s.bowlParams.innerTopR * s.bowlParams.innerTopR then
    hideParticle i (pushRipple p.position (spawnSplash p.position s))
  else s

/-- The collision / absorption / expiry cascade of `updateParticles` for the
already-integrated particle `p` stored in slot `i`, in source order:
(a) bowl-floor hit within the bowl radius — stop and hide (early return);
(b) outside the expanded cull radius near the surface — hide (early return);
(c) the water-surface absorption `splashAbsorb`;
then (d) the life-expiry check. -/
def particleCollisions (i : ℕ) (p : Particle) (s : FState) : FState :=
  if p.position.y ≤ s.bowlParams.bottomY - 1/5 ∧
      p.position.x * p.position.x + p.position.z * p.position.z ≤
        s.bowlParams.innerTopR * s.bowlParams.innerTopR then
    { s with particles := s.particles.set i { p with visible := false, velocity := ⟨0, 0, 0⟩ } }
  else if (s.bowlParams.innerTopR + 3/20) * (s.bowlParams.innerTopR + 3/20) <
        p.position.x * p.position.x + p.position.z * p.position.z ∧
      p.position.y ≤ s.bowlParams.absorbY + 1/5 then
    hideParticle i s
  else if p.maxLife ≤ p.life then hideParticle i (splashAbsorb i p s)
  else splashAbsorb i p s

/-- The body of `updateParticles`' `forEach` for slot `i`: skip invisible
slots, otherwise integrate in place and run the collision cascade. -/
def stepParticle (dt : ℚ) (i : ℕ) (s : FState) : FState :=
  match s.particles.get? i with
  | none => s
  | some p0 =>
    if !p0.visible then s
    else
      let p := integrateParticle dt p0
      particleCollisions i p { s with particles := s.particles.set i p }

/-- Index-driven traversal of the pool for `updateParticles`; the pool length
never changes, so a fuel equal to the initial length visits every slot. -/
def updateParticlesGo (dt : ℚ) : ℕ → ℕ → FState → FState
  | 0, _, s => s
  | n + 1, i, s => updateParticlesGo dt n (i + 1) (stepParticle dt i s)

/-- `updateParticles(deltaTime)`. -/
def updateParticles (dt : ℚ) (s : FState) : FState :=
  updateParticlesGo dt s.particles.length 0 s

/-- Step 1 of `updateWaterFlow`: the canonical drain P1.  A's visual level is
held fixed; the equivalent volume is taken from `B` and credited to `C`. -/
def drainStage (dt : ℚ) (s : FState) : FState :=
  if hasDrainHose s.hoses then
    let drainAmount := 3/5 * s.flowRate * s.flowIntensity * dt
    let actualDrain := min drainAmount (min s.waterB (1 - s.waterC))
    { s with waterB := s.waterB - actualDrain, waterC := s.waterC + actualDrain }
  else s

/-- Step 2 of `updateWaterFlow`: pressurized flow up the riser P3.  The moved
volume is debited from `B` and credited nowhere (the source deliberately does
not raise A's slab and only emits particles). -/
def riserStage (dt : ℚ) (s : FState) : FState :=
  if hasRiserHose s.hoses = true ∧ 1/20 < s.airPressure ∧ 0 < s.waterB then
    if 0 < min (s.flowRate * (5/4) * s.flowIntensity * s.airPressure * dt) s.waterB then
      createFountainParticles
        { s with waterB := s.waterB - min (s.flowRate * (5/4) * s.flowIntensity * s.airPressure * dt) s.waterB }
    else
      { s with waterB := s.waterB - min (s.flowRate * (5/4) * s.flowIntensity * s.airPressure * dt) s.waterB }
  else s

/-- Step 3 of `updateWaterFlow`: record whether the air line P2 exists. -/
def airLineStage (s : FState) : FState :=
  { s with airLineConnected := hasAirLineHose s.hoses }

/-- The volume one pass of the `this.hoses.forEach` in step 4 of
`updateWaterFlow` moves for hose `h`:
`Math.max(0, Math.min(hoseRate, available, capacity))`, where the rate gets
the 1.6× bottom-pickup boost when the hose starts at a bottom port,
`available = waterLevels[from]` and `capacity = 1 - waterLevels[to]`. -/
def hoseMoved (baseRate : ℚ) (s : FState) (h : Hose) : ℚ :=
  max 0 (min
    (if h.startObj = some ⟨VKey.B, PortName.bottom⟩ ∨
        h.startObj = some ⟨VKey.C, PortName.bottom⟩ then
      baseRate * (8/5)
    else baseRate)
    (min (s.level h.fromKey) (1 - s.level h.toKey)))

/-- The body of the `this.hoses.forEach` in step 4 of `updateWaterFlow`: skip
the air line P2, otherwise debit the `from` container and credit the `to`
container by `hoseMoved`. -/
def hoseStep (baseRate : ℚ) (s : FState) (h : Hose) : FState :=
  if h.startObj = some ⟨VKey.C, PortName.top⟩ ∧ h.endObj = some ⟨VKey.B, PortName.top⟩ then
    s
  else if 0 < hoseMoved baseRate s h then
    (s.setLevel h.fromKey (s.level h.fromKey - hoseMoved baseRate s h)).setLevel h.toKey
      ((s.setLevel h.fromKey (s.level h.fromKey - hoseMoved baseRate s h)).level h.toKey +
        hoseMoved baseRate s h)
  else s

/-- Step 4 of `updateWaterFlow`: every registered hose moves water from its
`from` container to its `to` container, in registration order, except the
air line P2 which is skipped. -/
def hosesStage (dt : ℚ) (s : FState) : FState :=
  let baseRate := 9/10 * s.flowRate * s.flowIntensity * dt
  s.hoses.foldl (hoseStep baseRate) s

/-- `updateWaterFlow(deltaTime)`: the four numbered steps in source order. -/
def updateWaterFlow (dt : ℚ) (s : FState) : FState :=
  hosesStage dt (airLineStage (riserStage dt (drainStage dt s)))

/-- `updateAirPressure()`.  Note the inflow factor is `Math.min(1, ·)` with no
lower clamp; the final pressure is clamped into `[0, 1]`. -/
def updateAirPressure (s : FState) : FState :=
  let sealFactor : ℚ := if s.airLineConnected then 1 else 1/5
  let heightHead := max 0 (s.waterC - s.waterB)
  let inflowFactor := min 1 ((1 - s.waterA) + s.waterC)
  { s with airPressure := max 0 (min 1 (sealFactor * (heightHead * 2 + 1/2 * inflowFactor))) }

/-- `updateWaterLevels()`: clamps `waterLevels.B` and `waterLevels.C` in place;
for `A` only a local clamped copy drives the visuals (`waterLevels.A` itself is
not written), and `bowlParams.absorbY` is moved to the current surface height. -/
def updateWaterLevels (s : FState) : FState :=
  let waterLevelA := max 0 (min 1 s.waterA)
  let waterSurfaceY := s.bowlParams.bottomY + s.bowlParams.height * waterLevelA
  { s with
    bowlParams := { s.bowlParams with absorbY := waterSurfaceY }
    waterB := max 0 (min 1 s.waterB)
    waterC := max 0 (min 1 s.waterC) }

/-- `animateFlip()`: sets the flipping flag and lazily creates the rotation
pivot.  The eased rotation itself is visual and driven by wall-clock callbacks;
its terminal effect is `flipFinish` below.  `this.sideGroup` is created in the
constructor and never removed, so the early return is only reachable on the
modelled flag. -/
def animateFlip (s : FState) : FState :=
  if !s.sideGroupPresent then s
  else if !s.sidePivotPresent then { s with isFlipping := true, sidePivotPresent := true }
  else { s with isFlipping := true }

/-- `flipSystem()`: no-op while flipping, otherwise swap the side-container
levels, zero the pressure, reactivate, and start the flip animation. -/
def flipSystem (s : FState) : FState :=
  if s.isFlipping then s
  else
    animateFlip { s with waterB := s.waterC, waterC := s.waterB, airPressure := 0, isActive := true }

/-- The terminal step of `animateFlip`'s animation closure (`t ≥ 1`): snap the
pivot rotation to the captured end rotation and clear the flipping flag.
Nothing else — in particular no level or pressure — is touched. -/
def flipFinish (endRot : ℚ) (s : FState) : FState :=
  { s with sidePivotRotX := endRot, isFlipping := false }

/-- `checkAutoFlip()`: flip when the receiver `C` is nearly full or the donor
`B` nearly empty, only when not already flipping. -/
def checkAutoFlip (s : FState) : FState :=
  if s.isFlipping then s
  else if 49/50 ≤ s.waterC ∨ s.waterB ≤ 1/50 then flipSystem s
  else s

/-- The mutation pipeline of `update(deltaTime)` in source order: water flow,
air pressure, particles, level clamping, auto flip. -/
def tickCore (dt : ℚ) (s : FState) : FState :=
  checkAutoFlip (updateWaterLevels (updateParticles dt (updateAirPressure (updateWaterFlow dt s))))

/-- `update(deltaTime)`: the per-frame tick.  `updateHoses` only rebuilds tube
geometry and is omitted; the stream material always exists so `this.time`
always advances; the ripple cull drops events older than 4 simulated seconds
using the advanced clock. -/
def update (dt : ℚ) (s : FState) : FState :=
  if !s.isActive then s
  else
    { tickCore dt s with
      time := (tickCore dt s).time + dt
      activeRipples := (tickCore dt s).activeRipples.filter
        fun r => (tickCore dt s).time + dt - r.startTime < 4 }

/-- `setFlowIntensity(value)`: clamp into `[0, 1]` and store. -/
def setFlowIntensity (v : ℚ) (s : FState) : FState :=
  { s with flowIntensity := max 0 (min 1 v) }

/-- `resetSystem()`: restore the initial levels, zero the pressure,
reactivate, zero the pivot rotation, clear the flipping flag and remove every
hose.  The particle pool is left alone. -/
def resetSystem (s : FState) : FState :=
  { s with
    waterA := 3/4, waterB := 1, waterC := 13/50
    airPressure := 0
    isActive := true
    sidePivotRotX := 0
    isFlipping := false
    hoses := [] }

/-- `getStatus()`: display percentages (UI label `A` is internal `B`, label
`B` is internal `A`, label `C` is internal `C`), `Math.round`ed. -/
def getStatus (s : FState) : Status :=
  ⟨round (s.waterB * 100), round (s.waterA * 100), round (s.waterC * 100),
    round (s.airPressure * 100), s.isActive⟩

/-- `removeHosesForContainer(containerKey)`. -/
def removeHosesForContainer (k : VKey) (s : FState) : FState :=
  { s with hoses := s.hoses.filter fun h => !(h.fromKey == k || h.toKey == k) }

/-- `addHose(fromKey, toKey)`: pushes a record with no anchor objects. -/
def addHosePlain (fk tk : VKey) (s : FState) : FState :=
  { s with hoses := s.hoses ++ [⟨fk, tk, none, none⟩] }

/-- World x-coordinates of the containers used by `chooseDefaultPort`
(`A` at the origin, the side group holding `B` and `C` to its right); the
comparison outcome is invariant under every motion the code performs. -/
def containerX : VKey → ℚ
  | VKey.A => 0
  | VKey.B => 7/2
  | VKey.C => 7/2

/-- `chooseDefaultPort(fromKey, toKey)`: the left or right side port of the
`from` container, by relative position. -/
def chooseDefaultPort (fk tk : VKey) : Port :=
  ⟨fk, if containerX fk ≤ containerX tk then PortName.right else PortName.left⟩

/-- `addFreeformHoseWithPoints(fromKey, toKey, ...)`: a user hose anchored on
automatically chosen side ports (never a bottom, top, drain or nozzle port). -/
def addFreeformHose (fk tk : VKey) (s : FState) : FState :=
  { s with hoses := s.hoses ++ [⟨fk, tk, some (chooseDefaultPort fk tk), some (chooseDefaultPort tk fk)⟩] }

/-- `addDefaultDiagramHoses()`: clear the hose list, seed the three canonical
paths P1, P2, P3 in that order, and create the swan-neck nozzle (spout tip). -/
def addDefaultDiagramHoses (s : FState) : FState :=
  { s with hoses := [drainHose, airLineHose, riserHose], spoutTipPresent := true }

/-- The `this.particles` pool built in `createParticleSystem`: `n` invisible
slots, each with `maxLife = 2 + Math.random() * 2`. -/
def initParticles (rng : ℕ → ℚ) (n : ℕ) : List Particle :=
  (List.range n).map fun i => ⟨false, 0, 2 + rng i * 2, ⟨0, 0, 0⟩, ⟨0, 0, 0⟩⟩

/-- The state of a freshly constructed `Fountain` (constructor field values,
the 400-slot pool, and the three canonical hoses seeded by
`addDefaultDiagramHoses`).  `airLineConnected` is `undefined` until the first
flow update and is only ever read by truthiness, so it starts `false`. -/
def initialState (rng : ℕ → ℚ) : FState where
  waterA := 3/4
  waterB := 1
  waterC := 13/50
  airPressure := 0
  flowRate := 1/20
  flowIntensity := 1/4
  isActive := true
  isFlipping := false
  airLineConnected := false
  hoses := [drainHose, airLineHose, riserHose]
  particles := initParticles rng 400
  activeRipples := []
  maxParticles := 400
  maxRipples := 6
  time := 0
  bowlParams := ⟨67/20, 7/5, 3/2, 3/2, 18/5⟩
  spoutTipPresent := true
  spoutTipPos := ⟨1/20, 21/4, 0⟩
  sideGroupPresent := true
  sidePivotPresent := false
  sidePivotRotX := 0
  rng := rng
  rngIdx := 400

/-- The commands a collaborator can invoke on a constructed `Fountain`
(per-frame advance, the flip and its asynchronous completion, reset, intensity
setting and hose bookkeeping). -/
inductive Op
  | advance (dt : ℚ)
  | flip
  | finishFlip (endRot : ℚ)
  | reset
  | setIntensity (v : ℚ)
  | plainHose (fk tk : VKey)
  | freeformHose (fk tk : VKey)
  | defaultHoses
  | removeHoses (k : VKey)

/-- Interpretation of a command on the engine state. -/
def applyOp : Op → FState → FState
  | Op.advance dt, s => update dt s
  | Op.flip, s => flipSystem s
  | Op.finishFlip r, s => flipFinish r s
  | Op.reset, s => resetSystem s
  | Op.setIntensity v, s => setFlowIntensity v s
  | Op.plainHose fk tk, s => addHosePlain fk tk s
  | Op.freeformHose fk tk, s => addFreeformHose fk tk s
  | Op.defaultHoses, s => addDefaultDiagramHoses s
  | Op.removeHoses k, s => removeHosesForContainer k s

/-- States reachable from construction by any command sequence. -/
inductive Reachable : FState → Prop
  | init (rng : ℕ → ℚ) : Reachable (initialState rng)
  | step {s : FState} (op : Op) : Reachable s → Reachable (applyOp op s)

/-- The conserved quantity of claim C1: the sum of the three vessel levels. -/
def levelSum (s : FState) : ℚ := s.waterA + s.waterB + s.waterC

/-- The volume the canonical drain moves in one tick (0 when P1 is absent). -/
def drainMove (s : FState) (dt : ℚ) : ℚ :=
  if hasDrainHose s.hoses then
    min (3/5 * s.flowRate * s.flowIntensity * dt) (min s.waterB (1 - s.waterC))
  else 0

/-- The volume the pressurized riser step withdraws from the system in one
tick: it is debited from `B` after the drain step and credited to no vessel. -/
def riserLoss (s : FState) (dt : ℚ) : ℚ :=
  let b1 := s.waterB - drainMove s dt
  if hasRiserHose s.hoses = true ∧ 1/20 < s.airPressure ∧ 0 < b1 then
    min (s.flowRate * (5/4) * s.flowIntensity * s.airPressure * dt) b1
  else 0

/-- Number of live (visible) pool slots. -/
def visibleCount (ps : List Particle) : ℕ := (ps.filter fun p => p.visible).length

/-- Jet particles are emitted during a tick when the flow update (the only
site that spawns jet particles) raises the number of live pool slots. -/
def jetEmitted (dt : ℚ) (s : FState) : Prop :=
  visibleCount s.particles < visibleCount (updateWaterFlow dt s).particles

/-- Modelled from the spec: the pressure formula of §4.2, with `clamp01` on
the inflow factor as the spec words it (the source uses `Math.min(1, ·)`). -/
def specPressure (a b c : ℚ) (airLine : Bool) : ℚ :=
  let sealFactor : ℚ := if airLine then 1 else 1/5
  let head := max 0 (c - b)
  let inflowFactor := clamp01 ((1 - a) + c)
  clamp01 (sealFactor * (head * 2 + 1/2 * inflowFactor))

def EngineEq (s t : FState) : Prop :=
  t.waterA = s.waterA ∧ t.waterB = s.waterB ∧ t.waterC = s.waterC ∧
  t.airPressure = s.airPressure ∧ t.flowRate = s.flowRate ∧
  t.flowIntensity = s.flowIntensity ∧ t.isActive = s.isActive ∧
  t.isFlipping = s.isFlipping ∧ t.airLineConnected = s.airLineConnected ∧
  t.hoses = s.hoses ∧ t.sideGroupPresent = s.sideGroupPresent ∧
  t.particles.length = s.particles.length

/-- `t` differs from `s` at most in the three water levels. -/
def LevelsOnly (s t : FState) : Prop :=
  t = { s with waterA := t.waterA, waterB := t.waterB, waterC := t.waterC }

/-- All three vessel levels lie in `[0, 1]`. -/
def LevelsInRange (s : FState) : Prop :=
  0 ≤ s.waterA ∧ s.waterA ≤ 1 ∧ 0 ≤ s.waterB ∧ s.waterB ≤ 1 ∧ 0 ≤ s.waterC ∧ s.waterC ≤ 1

/-- The withdrawal of the riser stage, as a function of the current state. -/
def riserTake (s : FState) (dt : ℚ) : ℚ :=
  if hasRiserHose s.hoses = true ∧ 1/20 < s.airPressure ∧ 0 < s.waterB then
    min (s.flowRate * (5/4) * s.flowIntensity * s.airPressure * dt) s.waterB
  else 0

/-! ## Concrete states for witnesses and counterexamples

All use the constructor's configuration (`flowRate = 0.05`, the bowl
parameters, the spout tip) with a configurable level/pressure tuple, hose
list and particle pool, and a zero random oracle; an empty pool is used where
the pool contents are irrelevant to the property at hand. -/

def mkState (a b c pr fi : ℚ) (hs : List Hose) (ps : List Particle) (al : Bool) : FState where
  waterA := a
  waterB := b
  waterC := c
  airPressure := pr
  flowRate := 1/20
  flowIntensity := fi
  isActive := true
  isFlipping := false
  airLineConnected := al
  hoses := hs
  particles := ps
  activeRipples := []
  maxParticles := 400
  maxRipples := 6
  time := 0
  bowlParams := ⟨67/20, 7/5, 3/2, 3/2, 18/5⟩
  spoutTipPresent := true
  spoutTipPos := ⟨1/20, 21/4, 0⟩
  sideGroupPresent := true
  sidePivotPresent := false
  sidePivotRotX := 0
  rng := fun _ => 0
  rngIdx := 0

/-- The constructor's default levels and intensity, canonical hoses. -/
def stateDefault : FState :=
  mkState (3/4) 1 (13/50) 0 (1/4) [drainHose, airLineHose, riserHose] [] false

/-- Defaults but with built-up pressure, so the riser step fires. -/
def statePressurized : FState :=
  mkState (3/4) 1 (13/50) (1/2) (1/4) [drainHose, airLineHose, riserHose] [] false

/-- One free pool slot. -/
def invisibleSlot : Particle := ⟨false, 0, 2, ⟨0, 0, 0⟩, ⟨0, 0, 0⟩⟩

/-- One occupied pool slot. -/
def visibleSlot : Particle := ⟨true, 0, 2, ⟨0, 0, 0⟩, ⟨0, 0, 0⟩⟩

/-- Air line hose removed but the `airLineConnected` flag still set from the
previous tick; riser present, pressure up, a free pool slot. -/
def staleAirState : FState :=
  mkState (3/4) (1/2) (13/50) (1/2) (1/4) [riserHose] [invisibleSlot] true

/-- Reservoir (internal `C`) at 98.1%, no hoses. -/
def trigReservoirState : FState := mkState (3/4) 1 (981/1000) 0 (1/4) [] [] false

/-- Basin (internal `B`) at 1%, no hoses. -/
def trigBasinState : FState := mkState (3/4) (1/100) (13/50) 0 (1/4) [] [] false

/-- A state captured mid-flip (the flipping flag set, pressure rebuilt by the
in-between ticks, levels not equal). -/
def midFlipState : FState :=
  { mkState (3/4) (3/10) (7/10) (1/2) (1/4) [] [] false with isFlipping := true }

/-- A pool with every slot occupied. -/
def fullPoolState : FState := mkState (3/4) 1 (13/50) (1/2) (1/4) [] [visibleSlot] true

/-! ## Frame lemmas: the particle subsystem does not touch the water model

`EngineEq s t` says `t` agrees with `s` on every field the water/pressure/flip
logic reads, and that the particle pool kept its length.  All particle-side
functions (`createFountainParticles`, `spawnSplash`, `updateParticles`, …)
relate their output to their input by `EngineEq`. -/

lemma engineEq_refl (s : FState) : EngineEq s s :=
  ⟨rfl, rfl, rfl, rfl, rfl, rfl, rfl, rfl, rfl, rfl, rfl, rfl⟩

lemma engineEq_trans {s t u : FState} (h : EngineEq s t) (g : EngineEq t u) :
    EngineEq s u :=
  ⟨g.1.trans h.1, g.2.1.trans h.2.1, g.2.2.1.trans h.2.2.1, g.2.2.2.1.trans h.2.2.2.1,
    g.2.2.2.2.1.trans h.2.2.2.2.1, g.2.2.2.2.2.1.trans h.2.2.2.2.2.1,
    g.2.2.2.2.2.2.1.trans h.2.2.2.2.2.2.1, g.2.2.2.2.2.2.2.1.trans h.2.2.2.2.2.2.2.1,
    g.2.2.2.2.2.2.2.2.1.trans h.2.2.2.2.2.2.2.2.1,
    g.2.2.2.2.2.2.2.2.2.1.trans h.2.2.2.2.2.2.2.2.2.1,
    g.2.2.2.2.2.2.2.2.2.2.1.trans h.2.2.2.2.2.2.2.2.2.2.1,
    g.2.2.2.2.2.2.2.2.2.2.2.trans h.2.2.2.2.2.2.2.2.2.2.2⟩

lemma replaceFirstInvisible_length (newP : Particle) (l : List Particle) :
    (replaceFirstInvisible newP l).length = l.length := by
  induction l with
  | nil => rfl
  | cons p rest ih =>
    simp only [replaceFirstInvisible]
    split <;> simp [ih]

lemma engineEq_spawnSlot (s : FState) (newP : Particle) (k : ℕ) :
    EngineEq s { s with particles := replaceFirstInvisible newP s.particles, rngIdx := k } :=
  ⟨rfl, rfl, rfl, rfl, rfl, rfl, rfl, rfl, rfl, rfl, rfl,
    replaceFirstInvisible_length _ _⟩

lemma engineEq_jetSpawnIter (fh : ℚ) (s : FState) : EngineEq s (jetSpawnIter fh s) := by
  unfold jetSpawnIter
  split
  · exact engineEq_spawnSlot s _ _
  · exact engineEq_refl s

lemma engineEq_jetSpawnLoop (fh : ℚ) (n : ℕ) (s : FState) :
    EngineEq s (jetSpawnLoop fh n s) := by
  induction n generalizing s with
  | zero => exact engineEq_refl s
  | succ n ih =>
    exact engineEq_trans (engineEq_jetSpawnIter fh s) (ih (jetSpawnIter fh s))

lemma engineEq_createFountainParticles (s : FState) :
    EngineEq s (createFountainParticles s) := by
  unfold createFountainParticles
  split
  · exact engineEq_refl s
  split
  · exact engineEq_refl s
  split
  · exact engineEq_refl s
  · exact engineEq_jetSpawnLoop _ _ s

lemma engineEq_splashLoop (origin : Vec3) (n : ℕ) (s : FState) :
    EngineEq s (splashLoop origin n s) := by
  induction n generalizing s with
  | zero => exact engineEq_refl s
  | succ n ih =>
    unfold splashLoop
    split
    · exact engineEq_trans (engineEq_spawnSlot s _ _) (ih _)
    · exact engineEq_refl s

lemma engineEq_spawnSplash (origin : Vec3) (s : FState) :
    EngineEq s (spawnSplash origin s) := by
  unfold spawnSplash
  exact engineEq_trans
    ⟨rfl, rfl, rfl, rfl, rfl, rfl, rfl, rfl, rfl, rfl, rfl, rfl⟩
    (engineEq_splashLoop origin _ _)

lemma engineEq_pushRipple (pos : Vec3) (s : FState) : EngineEq s (pushRipple pos s) := by
  unfold pushRipple
  exact ⟨rfl, rfl, rfl, rfl, rfl, rfl, rfl, rfl, rfl, rfl, rfl, rfl⟩

lemma engineEq_hideParticle (i : ℕ) (s : FState) : EngineEq s (hideParticle i s) := by
  unfold hideParticle
  rcases h : s.particles.get? i with _ | p
  · exact engineEq_refl s
  · exact ⟨rfl, rfl, rfl, rfl, rfl, rfl, rfl, rfl, rfl, rfl, rfl, by simp⟩

lemma engineEq_setSlot (s : FState) (i : ℕ) (q : Particle) :
    EngineEq s { s with particles := s.particles.set i q } :=
  ⟨rfl, rfl, rfl, rfl, rfl, rfl, rfl, rfl, rfl, rfl, rfl, by simp⟩

lemma engineEq_splashAbsorb (i : ℕ) (p : Particle) (s : FState) :
    EngineEq s (splashAbsorb i p s) := by
  unfold splashAbsorb
  split
  · exact engineEq_trans (engineEq_trans (engineEq_spawnSplash _ s)
      (engineEq_pushRipple _ _)) (engineEq_hideParticle i _)
  · exact engineEq_refl s

lemma engineEq_particleCollisions (i : ℕ) (p : Particle) (s : FState) :
    EngineEq s (particleCollisions i p s) := by
  unfold particleCollisions
  split
  · exact engineEq_setSlot s i _
  split
  · exact engineEq_hideParticle i s
  split
  · exact engineEq_trans (engineEq_splashAbsorb i p s) (engineEq_hideParticle i _)
  · exact engineEq_splashAbsorb i p s

lemma engineEq_stepParticle (dt : ℚ) (i : ℕ) (s : FState) :
    EngineEq s (stepParticle dt i s) := by
  unfold stepParticle
  rcases h : s.particles.get? i with _ | p
  · exact engineEq_refl s
  simp only []
  split
  · exact engineEq_refl s
  · exact engineEq_trans (engineEq_setSlot s i _) (engineEq_particleCollisions i _ _)

lemma engineEq_updateParticlesGo (dt : ℚ) (n i : ℕ) (s : FState) :
    EngineEq s (updateParticlesGo dt n i s) := by
  induction n generalizing i s with
  | zero => exact engineEq_refl s
  | succ n ih =>
    exact engineEq_trans (engineEq_stepParticle dt i s) (ih (i + 1) _)

lemma engineEq_updateParticles (dt : ℚ) (s : FState) :
    EngineEq s (updateParticles dt s) :=
  engineEq_updateParticlesGo dt _ 0 s

/-! ## Characterization of the water-flow stages -/

lemma levelsOnly_refl (s : FState) : LevelsOnly s s := rfl

lemma levelsOnly_trans {s t u : FState} (h : LevelsOnly s t) (g : LevelsOnly t u) :
    LevelsOnly s u := by
  unfold LevelsOnly at *
  conv_lhs => rw [g, h]

lemma levelsOnly_setLevel (s : FState) (k : VKey) (v : ℚ) :
    LevelsOnly s (s.setLevel k v) := by
  cases k <;> rfl

lemma levelsOnly_hoseStep (r : ℚ) (s : FState) (h : Hose) :
    LevelsOnly s (hoseStep r s h) := by
  unfold hoseStep
  split
  · exact levelsOnly_refl s
  split
  · exact levelsOnly_trans (levelsOnly_setLevel s _ _) (levelsOnly_setLevel _ _ _)
  · exact levelsOnly_refl s

lemma levelsOnly_hosesFold (r : ℚ) (hs : List Hose) (s : FState) :
    LevelsOnly s (hs.foldl (hoseStep r) s) := by
  induction hs generalizing s with
  | nil => exact levelsOnly_refl s
  | cons h rest ih =>
    exact levelsOnly_trans (levelsOnly_hoseStep r s h) (ih _)

lemma levelsOnly_hosesStage (dt : ℚ) (s : FState) : LevelsOnly s (hosesStage dt s) :=
  levelsOnly_hosesFold _ s.hoses s

/-- The level sum is invariant under a level write up to the obvious
difference. -/
lemma levelSum_setLevel (s : FState) (k : VKey) (v : ℚ) :
    levelSum (s.setLevel k v) = levelSum s - s.level k + v := by
  cases k <;> simp [levelSum, FState.setLevel, FState.level] <;> ring

lemma level_setLevel_self (s : FState) (k : VKey) (v : ℚ) :
    (s.setLevel k v).level k = v := by
  cases k <;> rfl

/-- Every pass of the generic hose loop conserves the level sum: the moved
volume is debited from the `from` container and credited to the `to`
container. -/
lemma levelSum_hoseStep (r : ℚ) (s : FState) (h : Hose) :
    levelSum (hoseStep r s h) = levelSum s := by
  unfold hoseStep
  split
  · rfl
  split
  · rw [levelSum_setLevel, levelSum_setLevel]
    ring
  · rfl

lemma levelSum_hosesFold (r : ℚ) (hs : List Hose) (s : FState) :
    levelSum (hs.foldl (hoseStep r) s) = levelSum s := by
  induction hs generalizing s with
  | nil => rfl
  | cons h rest ih => rw [List.foldl_cons, ih, levelSum_hoseStep]

lemma levelSum_hosesStage (dt : ℚ) (s : FState) :
    levelSum (hosesStage dt s) = levelSum s :=
  levelSum_hosesFold _ s.hoses s

lemma hoseMoved_nonneg (r : ℚ) (s : FState) (h : Hose) : 0 ≤ hoseMoved r s h :=
  le_max_left 0 _

lemma hoseMoved_le_avail (r : ℚ) (s : FState) (h : Hose) :
    hoseMoved r s h ≤ max 0 (s.level h.fromKey) :=
  max_le_max le_rfl (le_trans (min_le_right _ _) (min_le_left _ _))

lemma hoseMoved_le_cap (r : ℚ) (s : FState) (h : Hose) :
    hoseMoved r s h ≤ max 0 (1 - s.level h.toKey) :=
  max_le_max le_rfl (le_trans (min_le_right _ _) (min_le_right _ _))

/-- Each pass of the generic hose loop keeps all three levels in `[0, 1]`:
the moved volume is capped by the available volume and the free capacity. -/
lemma levelsInRange_hoseStep (r : ℚ) (h : Hose) (s : FState) (hr : LevelsInRange s) :
    LevelsInRange (hoseStep r s h) := by
  obtain ⟨a0, a1, b0, b1, c0, c1⟩ := hr
  unfold hoseStep
  split
  · exact ⟨a0, a1, b0, b1, c0, c1⟩
  split
  · have m0 : 0 ≤ hoseMoved r s h := hoseMoved_nonneg r s h
    have mava : hoseMoved r s h ≤ max 0 (s.level h.fromKey) := hoseMoved_le_avail r s h
    have mcap : hoseMoved r s h ≤ max 0 (1 - s.level h.toKey) := hoseMoved_le_cap r s h
    cases hf : h.fromKey <;> cases ht : h.toKey <;>
      simp only [hf, ht, FState.level, FState.setLevel, LevelsInRange] at mava mcap ⊢ <;>
      rw [max_eq_right (by linarith)] at mava <;>
      rw [max_eq_right (by linarith)] at mcap <;>
      exact ⟨by linarith, by linarith, by linarith, by linarith, by linarith, by linarith⟩
  · exact ⟨a0, a1, b0, b1, c0, c1⟩

lemma levelsInRange_hosesFold (r : ℚ) (hs : List Hose) (s : FState)
    (hr : LevelsInRange s) : LevelsInRange (hs.foldl (hoseStep r) s) := by
  induction hs generalizing s with
  | nil => exact hr
  | cons h rest ih => exact ih _ (levelsInRange_hoseStep r h s hr)

lemma levelsInRange_hosesStage (dt : ℚ) (s : FState) (hr : LevelsInRange s) :
    LevelsInRange (hosesStage dt s) :=
  levelsInRange_hosesFold _ s.hoses s hr

/-- The drain stage in closed form: debit `B` and credit `C` by `drainMove`. -/
lemma drainStage_eq (dt : ℚ) (s : FState) :
    drainStage dt s =
      { s with waterB := s.waterB - drainMove s dt, waterC := s.waterC + drainMove s dt } := by
  unfold drainStage drainMove
  by_cases hd : hasDrainHose s.hoses = true
  · rw [if_pos hd, if_pos hd]
  · rw [if_neg hd, if_neg hd]
    simp

/-- The riser stage agrees with debiting `riserTake` from `B` on every field
the engine reads (the difference is confined to the particle pool / oracle). -/
lemma engineEq_riserStage (dt : ℚ) (s : FState) :
    EngineEq { s with waterB := s.waterB - riserTake s dt } (riserStage dt s) := by
  unfold riserStage riserTake
  by_cases hg : hasRiserHose s.hoses = true ∧ 1/20 < s.airPressure ∧ 0 < s.waterB
  · rw [if_pos hg, if_pos hg]
    split
    · exact engineEq_createFountainParticles _
    · exact engineEq_refl _
  · rw [if_neg hg, if_neg hg]
    exact ⟨rfl, by simp, rfl, rfl, rfl, rfl, rfl, rfl, rfl, rfl, rfl, rfl⟩

lemma riserTake_nonneg (s : FState) (dt : ℚ) (hb : 0 ≤ s.waterB)
    (hrate : 0 ≤ s.flowRate * (5/4) * s.flowIntensity * s.airPressure * dt) :
    0 ≤ riserTake s dt := by
  unfold riserTake
  split
  · exact le_min hrate hb
  · exact le_refl 0

lemma riserTake_le_waterB (s : FState) (dt : ℚ) (hb : 0 ≤ s.waterB) :
    riserTake s dt ≤ s.waterB := by
  unfold riserTake
  split
  · exact min_le_right _ _
  · exact hb

lemma drainMove_nonneg (s : FState) (dt : ℚ) (hrate : 0 ≤ 3/5 * s.flowRate * s.flowIntensity * dt)
    (hb : 0 ≤ s.waterB) (hc : s.waterC ≤ 1) : 0 ≤ drainMove s dt := by
  unfold drainMove
  split
  · exact le_min hrate (le_min hb (by linarith))
  · exact le_refl 0

lemma drainMove_le_waterB (s : FState) (dt : ℚ) (hb : 0 ≤ s.waterB) :
    drainMove s dt ≤ s.waterB := by
  unfold drainMove
  split
  · exact le_trans (min_le_right _ _) (min_le_left _ _)
  · exact hb

lemma drainMove_le_cap (s : FState) (dt : ℚ) (hc : s.waterC ≤ 1) :
    drainMove s dt ≤ 1 - s.waterC := by
  unfold drainMove
  split
  · exact le_trans (min_le_right _ _) (min_le_right _ _)
  · linarith

/-! ## Projection helpers -/

lemma LevelsOnly.eqAirPressure {s t : FState} (h : LevelsOnly s t) :
    t.airPressure = s.airPressure := by rw [h]

lemma LevelsOnly.eqIsActive {s t : FState} (h : LevelsOnly s t) :
    t.isActive = s.isActive := by rw [h]

lemma LevelsOnly.eqIsFlipping {s t : FState} (h : LevelsOnly s t) :
    t.isFlipping = s.isFlipping := by rw [h]

lemma LevelsOnly.eqAirLine {s t : FState} (h : LevelsOnly s t) :
    t.airLineConnected = s.airLineConnected := by rw [h]

lemma LevelsOnly.eqHoses {s t : FState} (h : LevelsOnly s t) : t.hoses = s.hoses := by rw [h]

lemma LevelsOnly.eqParticles {s t : FState} (h : LevelsOnly s t) :
    t.particles = s.particles := by rw [h]

lemma LevelsOnly.eqSideGroup {s t : FState} (h : LevelsOnly s t) :
    t.sideGroupPresent = s.sideGroupPresent := by rw [h]

lemma le_of_le_max_right {m x : ℚ} (h : m ≤ max 0 x) (hx : 0 ≤ x) : m ≤ x := by
  rwa [max_eq_right hx] at h

/-- Each pass of the generic hose loop keeps `waterA` in `[0, 1]` without any
assumption on the other two levels. -/
lemma hoseStep_waterA_bound (r : ℚ) (h : Hose) (s : FState)
    (a0 : 0 ≤ s.waterA) (a1 : s.waterA ≤ 1) :
    0 ≤ (hoseStep r s h).waterA ∧ (hoseStep r s h).waterA ≤ 1 := by
  unfold hoseStep
  split
  · exact ⟨a0, a1⟩
  split
  · have m0 : 0 ≤ hoseMoved r s h := hoseMoved_nonneg r s h
    have mava : hoseMoved r s h ≤ max 0 (s.level h.fromKey) := hoseMoved_le_avail r s h
    have mcap : hoseMoved r s h ≤ max 0 (1 - s.level h.toKey) := hoseMoved_le_cap r s h
    cases hf : h.fromKey <;> cases ht : h.toKey <;>
      simp only [hf, ht, FState.level, FState.setLevel] at mava mcap ⊢ <;>
      constructor <;>
      first
        | linarith
        | linarith [le_of_le_max_right mava a0]
        | linarith [le_of_le_max_right mcap (show (0:ℚ) ≤ 1 - s.waterA by linarith)]
  · exact ⟨a0, a1⟩

lemma hosesFold_waterA_bound (r : ℚ) (hs : List Hose) (s : FState)
    (a0 : 0 ≤ s.waterA) (a1 : s.waterA ≤ 1) :
    0 ≤ (hs.foldl (hoseStep r) s).waterA ∧ (hs.foldl (hoseStep r) s).waterA ≤ 1 := by
  induction hs generalizing s with
  | nil => exact ⟨a0, a1⟩
  | cons h rest ih =>
    obtain ⟨b0, b1⟩ := hoseStep_waterA_bound r h s a0 a1
    exact ih _ b0 b1

/-! ## Flip and auto-flip lemmas -/

/-- `animateFlip` touches only the flipping flag and the pivot bookkeeping. -/
lemma animateFlip_frame (s : FState) :
    (animateFlip s).waterA = s.waterA ∧ (animateFlip s).waterB = s.waterB ∧
    (animateFlip s).waterC = s.waterC ∧ (animateFlip s).airPressure = s.airPressure ∧
    (animateFlip s).isActive = s.isActive ∧ (animateFlip s).hoses = s.hoses ∧
    (animateFlip s).particles = s.particles ∧
    (animateFlip s).flowIntensity = s.flowIntensity ∧
    (animateFlip s).flowRate = s.flowRate ∧
    (animateFlip s).airLineConnected = s.airLineConnected := by
  unfold animateFlip
  split
  · exact ⟨rfl, rfl, rfl, rfl, rfl, rfl, rfl, rfl, rfl, rfl⟩
  split
  · exact ⟨rfl, rfl, rfl, rfl, rfl, rfl, rfl, rfl, rfl, rfl⟩
  · exact ⟨rfl, rfl, rfl, rfl, rfl, rfl, rfl, rfl, rfl, rfl⟩

lemma animateFlip_isFlipping (s : FState) (hsg : s.sideGroupPresent = true) :
    (animateFlip s).isFlipping = true := by
  unfold animateFlip
  rw [hsg]
  simp only [Bool.not_true, Bool.false_eq_true, if_false]
  split <;> rfl

lemma flipSystem_of_flipping (s : FState) (h : s.isFlipping = true) : flipSystem s = s := by
  unfold flipSystem
  rw [h]
  simp

/-- The immediate effect of `flipSystem` when not already flipping: the side
levels swap, the pressure zeroes and the system reactivates — all before the
animation completes. -/
lemma flipSystem_of_not_flipping (s : FState) (h : s.isFlipping = false) :
    (flipSystem s).waterA = s.waterA ∧ (flipSystem s).waterB = s.waterC ∧
    (flipSystem s).waterC = s.waterB ∧ (flipSystem s).airPressure = 0 ∧
    (flipSystem s).isActive = true ∧ (flipSystem s).hoses = s.hoses ∧
    (flipSystem s).particles = s.particles ∧
    (flipSystem s).flowIntensity = s.flowIntensity := by
  unfold flipSystem
  rw [if_neg (by simp [h] : ¬(s.isFlipping = true))]
  obtain ⟨fa, fb, fc, fp, fact, fh, fpart, ffi, _, _⟩ :=
    animateFlip_frame { s with waterB := s.waterC, waterC := s.waterB, airPressure := 0, isActive := true }
  exact ⟨fa, fb, fc, fp, fact, fh, fpart, ffi⟩

lemma flipSystem_isFlipping (s : FState) (h : s.isFlipping = false)
    (hsg : s.sideGroupPresent = true) : (flipSystem s).isFlipping = true := by
  unfold flipSystem
  rw [if_neg (by simp [h] : ¬(s.isFlipping = true))]
  exact animateFlip_isFlipping _ hsg

lemma levelSum_flipSystem (s : FState) : levelSum (flipSystem s) = levelSum s := by
  by_cases h : s.isFlipping = true
  · rw [flipSystem_of_flipping s h]
  · have h2 : s.isFlipping = false := by
      cases hb : s.isFlipping
      · rfl
      · exact absurd hb h
    obtain ⟨fa, fb, fc, _, _, _, _, _⟩ := flipSystem_of_not_flipping s h2
    unfold levelSum
    rw [fa, fb, fc]
    ring

lemma levelSum_checkAutoFlip (s : FState) : levelSum (checkAutoFlip s) = levelSum s := by
  unfold checkAutoFlip
  split
  · rfl
  split
  · exact levelSum_flipSystem s
  · rfl

lemma checkAutoFlip_waterA (s : FState) : (checkAutoFlip s).waterA = s.waterA := by
  unfold checkAutoFlip
  split
  · rfl
  split
  · by_cases h : s.isFlipping = true
    · rw [flipSystem_of_flipping s h]
    · have h2 : s.isFlipping = false := by
        cases hb : s.isFlipping
        · rfl
        · exact absurd hb h
      exact (flipSystem_of_not_flipping s h2).1
  · rfl

/-! ## Composite pipeline lemmas -/

lemma clamp_of_mem {x : ℚ} (h0 : 0 ≤ x) (h1 : x ≤ 1) : max 0 (min 1 x) = x := by
  rw [min_eq_right h1, max_eq_right h0]

lemma clamp_bounds (x : ℚ) : 0 ≤ max 0 (min 1 x) ∧ max 0 (min 1 x) ≤ 1 :=
  ⟨le_max_left 0 _, max_le zero_le_one (min_le_left 1 x)⟩

lemma levelSum_drainStage (dt : ℚ) (s : FState) :
    levelSum (drainStage dt s) = levelSum s := by
  rw [drainStage_eq]
  unfold levelSum
  ring

lemma levelSum_riserStage (dt : ℚ) (s : FState) :
    levelSum (riserStage dt s) = levelSum s - riserTake s dt := by
  obtain ⟨e1, e2, e3, _⟩ := engineEq_riserStage dt s
  unfold levelSum
  rw [e1, e2, e3]
  ring

lemma levelSum_airLineStage (s : FState) : levelSum (airLineStage s) = levelSum s := rfl

/-- The riser withdrawal seen from the post-drain state is `riserLoss`. -/
lemma riserTake_drainStage (dt : ℚ) (s : FState) :
    riserTake (drainStage dt s) dt = riserLoss s dt := by
  unfold riserTake riserLoss
  rw [drainStage_eq]

/-- One flow update changes the level sum by exactly the riser withdrawal. -/
lemma levelSum_updateWaterFlow (dt : ℚ) (s : FState) :
    levelSum (updateWaterFlow dt s) = levelSum s - riserLoss s dt := by
  unfold updateWaterFlow
  rw [levelSum_hosesStage, levelSum_airLineStage, levelSum_riserStage,
    levelSum_drainStage, riserTake_drainStage]

lemma levelsInRange_drainStage (dt : ℚ) (s : FState) (hr : LevelsInRange s)
    (hrate : 0 ≤ 3/5 * s.flowRate * s.flowIntensity * dt) :
    LevelsInRange (drainStage dt s) := by
  obtain ⟨a0, a1, b0, b1, c0, c1⟩ := hr
  have m0 := drainMove_nonneg s dt hrate b0 c1
  have mb := drainMove_le_waterB s dt b0
  have mc := drainMove_le_cap s dt c1
  rw [drainStage_eq]
  unfold LevelsInRange
  dsimp only
  exact ⟨a0, a1, by linarith, by linarith, by linarith, by linarith⟩

lemma levelsInRange_riserStage (dt : ℚ) (s : FState) (hr : LevelsInRange s)
    (hrate : 0 ≤ s.flowRate * (5/4) * s.flowIntensity * s.airPressure * dt) :
    LevelsInRange (riserStage dt s) := by
  obtain ⟨a0, a1, b0, b1, c0, c1⟩ := hr
  have m0 := riserTake_nonneg s dt b0 hrate
  have mb := riserTake_le_waterB s dt b0
  obtain ⟨e1, e2, e3, _⟩ := engineEq_riserStage dt s
  rw [LevelsInRange, e1, e2, e3]
  dsimp only
  exact ⟨a0, a1, by linarith, by linarith, c0, c1⟩

lemma levelsInRange_airLineStage (s : FState) (hr : LevelsInRange s) :
    LevelsInRange (airLineStage s) := hr

/-- The whole flow update keeps the levels in `[0, 1]` when the per-tick rate
factors are nonnegative. -/
lemma levelsInRange_updateWaterFlow (dt : ℚ) (s : FState) (hr : LevelsInRange s)
    (hdt : 0 ≤ dt) (hfr : 0 ≤ s.flowRate) (hfi : 0 ≤ s.flowIntensity)
    (hpr : 0 ≤ s.airPressure) : LevelsInRange (updateWaterFlow dt s) := by
  have h1 : LevelsInRange (drainStage dt s) :=
    levelsInRange_drainStage dt s hr (by positivity)
  have h2 : LevelsInRange (riserStage dt (drainStage dt s)) := by
    refine levelsInRange_riserStage dt _ h1 ?_
    rw [drainStage_eq]
    positivity
  exact levelsInRange_hosesStage dt _ (levelsInRange_airLineStage _ h2)

lemma updateAirPressure_frame (s : FState) :
    (updateAirPressure s).waterA = s.waterA ∧ (updateAirPressure s).waterB = s.waterB ∧
    (updateAirPressure s).waterC = s.waterC ∧ (updateAirPressure s).isActive = s.isActive ∧
    (updateAirPressure s).isFlipping = s.isFlipping ∧
    (updateAirPressure s).hoses = s.hoses ∧ (updateAirPressure s).particles = s.particles ∧
    (updateAirPressure s).sideGroupPresent = s.sideGroupPresent :=
  ⟨rfl, rfl, rfl, rfl, rfl, rfl, rfl, rfl⟩

lemma updateAirPressure_bounds (s : FState) :
    0 ≤ (updateAirPressure s).airPressure ∧ (updateAirPressure s).airPressure ≤ 1 :=
  clamp_bounds _

lemma updateWaterLevels_eq (s : FState) :
    updateWaterLevels s =
      { s with
        bowlParams := { s.bowlParams with
          absorbY := s.bowlParams.bottomY + s.bowlParams.height * max 0 (min 1 s.waterA) }
        waterB := max 0 (min 1 s.waterB)
        waterC := max 0 (min 1 s.waterC) } := rfl

lemma checkAutoFlip_particles (s : FState) : (checkAutoFlip s).particles = s.particles := by
  unfold checkAutoFlip
  split
  · rfl
  split
  · by_cases h : s.isFlipping = true
    · rw [flipSystem_of_flipping s h]
    · exact (flipSystem_of_not_flipping s (Bool.eq_false_iff.mpr h)).2.2.2.2.2.2.1
  · rfl

lemma checkAutoFlip_isActive (s : FState) (h : s.isActive = true) :
    (checkAutoFlip s).isActive = true := by
  unfold checkAutoFlip
  split
  · exact h
  split
  · by_cases hf : s.isFlipping = true
    · rw [flipSystem_of_flipping s hf]
      exact h
    · have h2 : s.isFlipping = false := by
        cases hb : s.isFlipping
        · rfl
        · exact absurd hb hf
      exact (flipSystem_of_not_flipping s h2).2.2.2.2.1
  · exact h

lemma checkAutoFlip_level_bounds (s : FState) (hb0 : 0 ≤ s.waterB) (hb1 : s.waterB ≤ 1)
    (hc0 : 0 ≤ s.waterC) (hc1 : s.waterC ≤ 1) :
    0 ≤ (checkAutoFlip s).waterB ∧ (checkAutoFlip s).waterB ≤ 1 ∧
    0 ≤ (checkAutoFlip s).waterC ∧ (checkAutoFlip s).waterC ≤ 1 := by
  unfold checkAutoFlip
  split
  · exact ⟨hb0, hb1, hc0, hc1⟩
  split
  · by_cases hf : s.isFlipping = true
    · rw [flipSystem_of_flipping s hf]
      exact ⟨hb0, hb1, hc0, hc1⟩
    · have h2 : s.isFlipping = false := by
        cases hb : s.isFlipping
        · rfl
        · exact absurd hb hf
      obtain ⟨_, fb, fc, _⟩ := flipSystem_of_not_flipping s h2
      rw [fb, fc]
      exact ⟨hc0, hc1, hb0, hb1⟩
  · exact ⟨hb0, hb1, hc0, hc1⟩

lemma checkAutoFlip_pressure_bounds (s : FState) (h0 : 0 ≤ s.airPressure)
    (h1 : s.airPressure ≤ 1) :
    0 ≤ (checkAutoFlip s).airPressure ∧ (checkAutoFlip s).airPressure ≤ 1 := by
  unfold checkAutoFlip
  split
  · exact ⟨h0, h1⟩
  split
  · by_cases hf : s.isFlipping = true
    · rw [flipSystem_of_flipping s hf]
      exact ⟨h0, h1⟩
    · have h2 : s.isFlipping = false := by
        cases hb : s.isFlipping
        · rfl
        · exact absurd hb hf
      rw [(flipSystem_of_not_flipping s h2).2.2.2.1]
      exact ⟨le_refl 0, zero_le_one⟩
  · exact ⟨h0, h1⟩

/-- `update` on an active state is the tick pipeline plus the clock advance
and ripple cull. -/
lemma update_eq_of_active (dt : ℚ) (s : FState) (h : s.isActive = true) :
    update dt s =
      { tickCore dt s with
        time := (tickCore dt s).time + dt
        activeRipples := (tickCore dt s).activeRipples.filter
          fun r => (tickCore dt s).time + dt - r.startTime < 4 } := by
  unfold update
  rw [if_neg (by simp [h])]

/-! ## Particle-count lemmas -/

lemma drainStage_of_no_drain (dt : ℚ) (s : FState) (h : hasDrainHose s.hoses = false) :
    drainStage dt s = s := by
  unfold drainStage
  rw [if_neg (by simp [h])]

lemma createFountainParticles_of_not_airline (s : FState) (h : s.airLineConnected = false) :
    createFountainParticles s = s := by
  unfold createFountainParticles
  split
  · rfl
  rw [if_pos (by simp [h])]

lemma visibleCount_cons_visible (p : Particle) (l : List Particle) (hp : p.visible = true) :
    visibleCount (p :: l) = visibleCount l + 1 := by
  simp [visibleCount, List.filter_cons, hp]

lemma visibleCount_cons_invisible (p : Particle) (l : List Particle) (hp : p.visible = false) :
    visibleCount (p :: l) = visibleCount l := by
  simp [visibleCount, List.filter_cons, hp]

lemma visibleCount_replaceFirstInvisible (newP : Particle) (hv : newP.visible = true)
    (l : List Particle) (h : l.any (fun p => !p.visible) = true) :
    visibleCount (replaceFirstInvisible newP l) = visibleCount l + 1 := by
  induction l with
  | nil => simp at h
  | cons p rest ih =>
    by_cases hp : p.visible = true
    · have h2 : rest.any (fun q => !q.visible) = true := by
        rcases List.any_eq_true.mp h with ⟨q, hq, hqv⟩
        rcases List.mem_cons.mp hq with rfl | hq2
        · simp [hp] at hqv
        · exact List.any_eq_true.mpr ⟨q, hq2, hqv⟩
      rw [show replaceFirstInvisible newP (p :: rest) = p :: replaceFirstInvisible newP rest
        from by simp [replaceFirstInvisible, hp]]
      rw [visibleCount_cons_visible _ _ hp, visibleCount_cons_visible _ _ hp, ih h2]
    · have hp2 : p.visible = false := Bool.eq_false_iff.mpr hp
      rw [show replaceFirstInvisible newP (p :: rest) = newP :: rest
        from by simp [replaceFirstInvisible, hp2]]
      rw [visibleCount_cons_visible _ _ hv, visibleCount_cons_invisible _ _ hp2]

lemma visibleCount_le_jetSpawnIter (fh : ℚ) (s : FState) :
    visibleCount s.particles ≤ visibleCount (jetSpawnIter fh s).particles := by
  unfold jetSpawnIter
  split
  · next hfree =>
    rw [show ∀ t : FState, ∀ ps k, ({ t with particles := ps, rngIdx := k } : FState).particles = ps
        from fun _ _ _ => rfl]
    rw [visibleCount_replaceFirstInvisible _ rfl _ hfree]
    omega
  · exact le_refl _

lemma visibleCount_le_jetSpawnLoop (fh : ℚ) (n : ℕ) (s : FState) :
    visibleCount s.particles ≤ visibleCount (jetSpawnLoop fh n s).particles := by
  induction n generalizing s with
  | zero => exact le_refl _
  | succ n ih =>
    exact le_trans (visibleCount_le_jetSpawnIter fh s) (ih (jetSpawnIter fh s))

lemma visibleCount_lt_jetSpawnLoop (fh : ℚ) (n : ℕ) (s : FState) (hn : 0 < n)
    (hfree : s.particles.any (fun p => !p.visible) = true) :
    visibleCount s.particles < visibleCount (jetSpawnLoop fh n s).particles := by
  cases n with
  | zero => exact absurd hn (lt_irrefl 0)
  | succ n =>
    show visibleCount s.particles < visibleCount (jetSpawnLoop fh n (jetSpawnIter fh s)).particles
    have h1 : visibleCount s.particles < visibleCount (jetSpawnIter fh s).particles := by
      unfold jetSpawnIter
      rw [if_pos hfree]
      rw [show ∀ t : FState, ∀ ps k, ({ t with particles := ps, rngIdx := k } : FState).particles = ps
          from fun _ _ _ => rfl]
      rw [visibleCount_replaceFirstInvisible _ rfl _ hfree]
      omega
    exact lt_of_lt_of_le h1 (visibleCount_le_jetSpawnLoop fh n _)

lemma jetSpawnIter_of_full (fh : ℚ) (s : FState)
    (h : s.particles.any (fun p => !p.visible) = false) : jetSpawnIter fh s = s := by
  unfold jetSpawnIter
  rw [if_neg (by simp [h])]

lemma jetSpawnLoop_of_full (fh : ℚ) (n : ℕ) (s : FState)
    (h : s.particles.any (fun p => !p.visible) = false) : jetSpawnLoop fh n s = s := by
  induction n with
  | zero => rfl
  | succ n ih =>
    show jetSpawnLoop fh n (jetSpawnIter fh s) = s
    rw [jetSpawnIter_of_full fh s h, ih]

lemma splashLoop_of_full (origin : Vec3) (n : ℕ) (s : FState)
    (h : s.particles.any (fun p => !p.visible) = false) : splashLoop origin n s = s := by
  cases n with
  | zero => rfl
  | succ n =>
    unfold splashLoop
    rw [if_neg (by simp [h])]

/-! ## Per-operation invariant lemmas -/

lemma updateWaterFlow_isActive (dt : ℚ) (s : FState) :
    (updateWaterFlow dt s).isActive = s.isActive := by
  unfold updateWaterFlow
  rw [(levelsOnly_hosesStage dt _).eqIsActive]
  have e := (engineEq_riserStage dt (drainStage dt s)).2.2.2.2.2.2.1
  rw [show (airLineStage (riserStage dt (drainStage dt s))).isActive =
      (riserStage dt (drainStage dt s)).isActive from rfl, e, drainStage_eq]

lemma updateWaterFlow_particles_length (dt : ℚ) (s : FState) :
    (updateWaterFlow dt s).particles.length = s.particles.length := by
  unfold updateWaterFlow
  rw [(levelsOnly_hosesStage dt _).eqParticles]
  have e := (engineEq_riserStage dt (drainStage dt s)).2.2.2.2.2.2.2.2.2.2.2
  rw [show (airLineStage (riserStage dt (drainStage dt s))).particles =
      (riserStage dt (drainStage dt s)).particles from rfl, e, drainStage_eq]

lemma update_isActive (dt : ℚ) (s : FState) (h : s.isActive = true) :
    (update dt s).isActive = true := by
  rw [update_eq_of_active dt s h]
  show (checkAutoFlip (updateWaterLevels (updateParticles dt
    (updateAirPressure (updateWaterFlow dt s))))).isActive = true
  apply checkAutoFlip_isActive
  rw [show (updateWaterLevels (updateParticles dt
      (updateAirPressure (updateWaterFlow dt s)))).isActive =
    (updateParticles dt (updateAirPressure (updateWaterFlow dt s))).isActive from rfl]
  rw [(engineEq_updateParticles dt _).2.2.2.2.2.2.1]
  rw [show (updateAirPressure (updateWaterFlow dt s)).isActive =
    (updateWaterFlow dt s).isActive from rfl]
  rw [updateWaterFlow_isActive dt s, h]

lemma update_particles_length (dt : ℚ) (s : FState) :
    (update dt s).particles.length = s.particles.length := by
  by_cases h : s.isActive = true
  · rw [update_eq_of_active dt s h]
    show (checkAutoFlip (updateWaterLevels (updateParticles dt
      (updateAirPressure (updateWaterFlow dt s))))).particles.length = _
    rw [checkAutoFlip_particles]
    rw [show (updateWaterLevels (updateParticles dt
        (updateAirPressure (updateWaterFlow dt s)))).particles =
      (updateParticles dt (updateAirPressure (updateWaterFlow dt s))).particles from rfl]
    rw [(engineEq_updateParticles dt _).2.2.2.2.2.2.2.2.2.2.2]
    rw [show (updateAirPressure (updateWaterFlow dt s)).particles =
      (updateWaterFlow dt s).particles from rfl]
    exact updateWaterFlow_particles_length dt s
  · unfold update
    rw [if_pos (by simp [Bool.eq_false_iff.mpr h])]

lemma flipSystem_isActive (s : FState) (h : s.isActive = true) :
    (flipSystem s).isActive = true := by
  by_cases hf : s.isFlipping = true
  · rw [flipSystem_of_flipping s hf]
    exact h
  · have h2 : s.isFlipping = false := by
      cases hb : s.isFlipping
      · rfl
      · exact absurd hb hf
    exact (flipSystem_of_not_flipping s h2).2.2.2.2.1

lemma flipSystem_particles (s : FState) : (flipSystem s).particles = s.particles := by
  by_cases hf : s.isFlipping = true
  · rw [flipSystem_of_flipping s hf]
  · have h2 : s.isFlipping = false := by
      cases hb : s.isFlipping
      · rfl
      · exact absurd hb hf
    exact (flipSystem_of_not_flipping s h2).2.2.2.2.2.2.1

/-- The engine invariant maintained by every reachable state: the system is
active and the particle pool has its constructed size. -/
lemma reachable_invariant {s : FState} (h : Reachable s) :
    s.isActive = true ∧ s.particles.length = 400 := by
  induction h with
  | init rng =>
    constructor
    · rfl
    · simp [initialState, initParticles]
  | step op _ ih =>
    obtain ⟨ha, hl⟩ := ih
    cases op with
    | advance dt =>
      exact ⟨update_isActive dt _ ha, (update_particles_length dt _).trans hl⟩
    | flip =>
      exact ⟨flipSystem_isActive _ ha, by rw [applyOp, flipSystem_particles]; exact hl⟩
    | finishFlip r => exact ⟨ha, hl⟩
    | reset => exact ⟨rfl, hl⟩
    | setIntensity v => exact ⟨ha, hl⟩
    | plainHose fk tk => exact ⟨ha, hl⟩
    | freeformHose fk tk => exact ⟨ha, hl⟩
    | defaultHoses => exact ⟨ha, hl⟩
    | removeHoses k => exact ⟨ha, hl⟩

/-- `checkAutoFlip` starts a flip exactly on the documented trigger. -/
lemma checkAutoFlip_isFlipping_iff (s : FState) (hns : s.isFlipping = false)
    (hsg : s.sideGroupPresent = true) :
    (checkAutoFlip s).isFlipping = true ↔ (49/50 ≤ s.waterC ∨ s.waterB ≤ 1/50) := by
  unfold checkAutoFlip
  rw [hns]
  simp only [Bool.false_eq_true, if_false]
  constructor
  · intro hf
    by_contra hcond
    rw [if_neg hcond] at hf
    rw [hns] at hf
    exact Bool.false_ne_true hf
  · intro hcond
    rw [if_pos hcond]
    exact flipSystem_isFlipping s hns hsg

/-! ## Evaluation lemmas for the canonical hoses -/

lemma hoseMoved_drainHose (r : ℚ) (s : FState) :
    hoseMoved r s drainHose = max 0 (min r (min s.waterA (1 - s.waterC))) := by
  unfold hoseMoved drainHose
  rw [if_neg (by simp)]
  rfl

lemma hoseMoved_riserHose (r : ℚ) (s : FState) :
    hoseMoved r s riserHose = max 0 (min (r * (8/5)) (min s.waterB (1 - s.waterA))) := by
  unfold hoseMoved riserHose
  rw [if_pos (by simp)]
  rfl

/-- The generic loop skips the canonical air line: no water moves along P2. -/
lemma hoseStep_airLineHose (r : ℚ) (s : FState) : hoseStep r s airLineHose = s := by
  unfold hoseStep airLineHose
  rw [if_pos ⟨rfl, rfl⟩]

/-- The generic loop also processes the canonical drain hose `A → C`,
moving water out of the bowl `A`. -/
lemma hoseStep_drainHose (r : ℚ) (s : FState) :
    hoseStep r s drainHose =
      { s with waterA := s.waterA - hoseMoved r s drainHose,
               waterC := s.waterC + hoseMoved r s drainHose } := by
  unfold hoseStep
  rw [if_neg (by simp [drainHose])]
  split
  · rfl
  · next hm =>
    have h0 : hoseMoved r s drainHose = 0 :=
      le_antisymm (not_lt.mp hm) (hoseMoved_nonneg r s drainHose)
    rw [h0]
    simp

/-- The generic loop also processes the canonical riser hose `B → A` with the
bottom-pickup boost, moving water into the bowl `A`. -/
lemma hoseStep_riserHose (r : ℚ) (s : FState) :
    hoseStep r s riserHose =
      { s with waterB := s.waterB - hoseMoved r s riserHose,
               waterA := s.waterA + hoseMoved r s riserHose } := by
  unfold hoseStep
  rw [if_neg (by simp [riserHose])]
  split
  · rfl
  · next hm =>
    have h0 : hoseMoved r s riserHose = 0 :=
      le_antisymm (not_lt.mp hm) (hoseMoved_nonneg r s riserHose)
    rw [h0]
    simp

lemma hasDrain_canonical : hasDrainHose [drainHose, airLineHose, riserHose] = true := by decide

lemma hasRiser_canonical : hasRiserHose [drainHose, airLineHose, riserHose] = true := by decide

lemma hasAirLine_canonical : hasAirLineHose [drainHose, airLineHose, riserHose] = true := by
  decide

/-- Exact volume accounting for one tick of an active engine: the level sum
drops by exactly the pressurized riser withdrawal (`riserLoss`); every other
transfer — the drain reroute, the generic hose passes and a possible flip
swap — conserves it. -/
lemma levelSum_update (dt : ℚ) (s : FState) (hact : s.isActive = true)
    (hr : LevelsInRange s) (hdt : 0 ≤ dt) (hfr : 0 ≤ s.flowRate)
    (hfi : 0 ≤ s.flowIntensity) (hpr : 0 ≤ s.airPressure) :
    levelSum (update dt s) = levelSum s - riserLoss s dt := by
  rw [update_eq_of_active dt s hact]
  show levelSum (tickCore dt s) = levelSum s - riserLoss s dt
  unfold tickCore
  rw [levelSum_checkAutoFlip]
  have hw : LevelsInRange (updateWaterFlow dt s) :=
    levelsInRange_updateWaterFlow dt s hr hdt hfr hfi hpr
  obtain ⟨pa, pb, pc, _⟩ := updateAirPressure_frame (updateWaterFlow dt s)
  obtain ⟨qa, qb, qc, _⟩ :=
    engineEq_updateParticles dt (updateAirPressure (updateWaterFlow dt s))
  rw [updateWaterLevels_eq]
  unfold levelSum
  dsimp only
  rw [qa, qb, qc, pa, pb, pc]
  obtain ⟨_, _, b0, b1, c0, c1⟩ := hw
  rw [clamp_of_mem b0 b1, clamp_of_mem c0 c1]
  have hsum := levelSum_updateWaterFlow dt s
  unfold levelSum at hsum
  linarith

/-! ## Bounds of a full tick -/

lemma updateWaterFlow_waterA_keep (dt : ℚ) (s : FState) :
    (airLineStage (riserStage dt (drainStage dt s))).waterA = s.waterA := by
  show (riserStage dt (drainStage dt s)).waterA = s.waterA
  rw [(engineEq_riserStage dt (drainStage dt s)).1]
  show (drainStage dt s).waterA = s.waterA
  rw [drainStage_eq]

lemma updateWaterFlow_waterA_bound (dt : ℚ) (s : FState) (ha0 : 0 ≤ s.waterA)
    (ha1 : s.waterA ≤ 1) :
    0 ≤ (updateWaterFlow dt s).waterA ∧ (updateWaterFlow dt s).waterA ≤ 1 := by
  unfold updateWaterFlow hosesStage
  refine hosesFold_waterA_bound _ _ _ ?_ ?_ <;> rw [updateWaterFlow_waterA_keep dt s] <;>
    assumption

/-- A full tick of an active engine leaves every level and the pressure in
`[0, 1]`, for every `dt` (positive, zero or negative) and regardless of the
stored flow intensity, pressure, or hose topology; only the open vessel `A`
(never clamped in place by `updateWaterLevels`) needs to start in range. -/
lemma update_bounds (dt : ℚ) (s : FState) (hact : s.isActive = true)
    (ha0 : 0 ≤ s.waterA) (ha1 : s.waterA ≤ 1) :
    (0 ≤ (update dt s).waterA ∧ (update dt s).waterA ≤ 1) ∧
    (0 ≤ (update dt s).waterB ∧ (update dt s).waterB ≤ 1) ∧
    (0 ≤ (update dt s).waterC ∧ (update dt s).waterC ≤ 1) ∧
    (0 ≤ (update dt s).airPressure ∧ (update dt s).airPressure ≤ 1) := by
  rw [update_eq_of_active dt s hact]
  show (0 ≤ (tickCore dt s).waterA ∧ (tickCore dt s).waterA ≤ 1) ∧
    (0 ≤ (tickCore dt s).waterB ∧ (tickCore dt s).waterB ≤ 1) ∧
    (0 ≤ (tickCore dt s).waterC ∧ (tickCore dt s).waterC ≤ 1) ∧
    (0 ≤ (tickCore dt s).airPressure ∧ (tickCore dt s).airPressure ≤ 1)
  unfold tickCore
  obtain ⟨qa, qb, qc, qp, _⟩ :=
    engineEq_updateParticles dt (updateAirPressure (updateWaterFlow dt s))
  constructor
  · rw [checkAutoFlip_waterA, updateWaterLevels_eq]
    dsimp only
    rw [qa]
    rw [show (updateAirPressure (updateWaterFlow dt s)).waterA =
      (updateWaterFlow dt s).waterA from rfl]
    exact updateWaterFlow_waterA_bound dt s ha0 ha1
  constructor
  · obtain ⟨x1, x2, _, _⟩ := checkAutoFlip_level_bounds
      (updateWaterLevels (updateParticles dt (updateAirPressure (updateWaterFlow dt s))))
      (clamp_bounds _).1 (clamp_bounds _).2 (clamp_bounds _).1 (clamp_bounds _).2
    exact ⟨x1, x2⟩
  constructor
  · obtain ⟨_, _, x3, x4⟩ := checkAutoFlip_level_bounds
      (updateWaterLevels (updateParticles dt (updateAirPressure (updateWaterFlow dt s))))
      (clamp_bounds _).1 (clamp_bounds _).2 (clamp_bounds _).1 (clamp_bounds _).2
    exact ⟨x3, x4⟩
  · refine checkAutoFlip_pressure_bounds _ ?_ ?_ <;>
      rw [show (updateWaterLevels (updateParticles dt
          (updateAirPressure (updateWaterFlow dt s)))).airPressure =
        (updateParticles dt (updateAirPressure (updateWaterFlow dt s))).airPressure from rfl,
        qp]
    · exact (updateAirPressure_bounds _).1
    · exact (updateAirPressure_bounds _).2

/-! ## Jet-emission gating -/

lemma riserStage_particles_of_no_riser (dt : ℚ) (s : FState)
    (h : hasRiserHose s.hoses = false) : (riserStage dt s).particles = s.particles := by
  unfold riserStage
  rw [if_neg (by simp [h])]

lemma riserStage_particles_of_low_pressure (dt : ℚ) (s : FState)
    (h : ¬(1/20 < s.airPressure)) : (riserStage dt s).particles = s.particles := by
  unfold riserStage
  rw [if_neg fun hc => h hc.2.1]

lemma riserStage_particles_of_not_airline (dt : ℚ) (s : FState)
    (h : s.airLineConnected = false) : (riserStage dt s).particles = s.particles := by
  unfold riserStage
  split
  · split
    · have h2 := createFountainParticles_of_not_airline { s with waterB := s.waterB - min (s.flowRate * (5/4) * s.flowIntensity * s.airPressure * dt) s.waterB } h
      rw [h2]
    · rfl
  · rfl

lemma updateWaterFlow_particles_eq_riser (dt : ℚ) (s : FState) :
    (updateWaterFlow dt s).particles = (riserStage dt (drainStage dt s)).particles := by
  unfold updateWaterFlow
  rw [(levelsOnly_hosesStage dt _).eqParticles]
  rfl

lemma drainStage_fields (dt : ℚ) (s : FState) :
    (drainStage dt s).particles = s.particles ∧ (drainStage dt s).hoses = s.hoses ∧
    (drainStage dt s).airPressure = s.airPressure ∧
    (drainStage dt s).airLineConnected = s.airLineConnected ∧
    (drainStage dt s).spoutTipPresent = s.spoutTipPresent := by
  rw [drainStage_eq]
  exact ⟨rfl, rfl, rfl, rfl, rfl⟩

/-- No jet particle is emitted without the riser hose: the flow update leaves
the pool untouched. -/
lemma updateWaterFlow_particles_no_riser (dt : ℚ) (s : FState)
    (h : hasRiserHose s.hoses = false) :
    (updateWaterFlow dt s).particles = s.particles := by
  rw [updateWaterFlow_particles_eq_riser]
  obtain ⟨hp, hh, _, _, _⟩ := drainStage_fields dt s
  rw [riserStage_particles_of_no_riser dt _ (by rw [hh]; exact h), hp]

/-- Necessary conditions for a jet emission: the riser present now, the
`airLineConnected` flag (assigned only at the end of the previous flow
update) set, and pressure above the threshold. -/
lemma jetEmitted_conditions (dt : ℚ) (s : FState) (hjet : jetEmitted dt s) :
    hasRiserHose s.hoses = true ∧ s.airLineConnected = true ∧ 1/20 < s.airPressure := by
  obtain ⟨hp, hh, hpr, hal, _⟩ := drainStage_fields dt s
  by_cases h1 : hasRiserHose s.hoses = true
  · by_cases h2 : s.airLineConnected = true
    · by_cases h3 : 1/20 < s.airPressure
      · exact ⟨h1, h2, h3⟩
      · exfalso
        unfold jetEmitted at hjet
        rw [updateWaterFlow_particles_eq_riser,
          riserStage_particles_of_low_pressure dt _ (by rw [hpr]; exact h3), hp] at hjet
        exact lt_irrefl _ hjet
    · exfalso
      unfold jetEmitted at hjet
      rw [updateWaterFlow_particles_eq_riser,
        riserStage_particles_of_not_airline dt _
          (by rw [hal]; exact Bool.eq_false_iff.mpr h2), hp] at hjet
      exact lt_irrefl _ hjet
  · exfalso
    unfold jetEmitted at hjet
    rw [updateWaterFlow_particles_no_riser dt s (Bool.eq_false_iff.mpr h1)] at hjet
    exact lt_irrefl _ hjet

/-- Sufficient conditions for a jet emission within one flow update. -/
lemma jetEmitted_when (dt : ℚ) (s : FState)
    (hnd : hasDrainHose s.hoses = false) (hri : hasRiserHose s.hoses = true)
    (hp : 1/20 < s.airPressure) (hb : 0 < s.waterB)
    (hflow : 0 < min (s.flowRate * (5/4) * s.flowIntensity * s.airPressure * dt) s.waterB)
    (hal : s.airLineConnected = true) (hst : s.spoutTipPresent = true)
    (hfree : s.particles.any (fun p => !p.visible) = true) :
    jetEmitted dt s := by
  unfold jetEmitted
  rw [updateWaterFlow_particles_eq_riser, drainStage_of_no_drain dt s hnd]
  unfold riserStage
  rw [if_pos ⟨hri, hp, hb⟩, if_pos hflow]
  unfold createFountainParticles
  rw [if_neg (by simp [hst]), if_neg (by simp [hal]),
    if_neg (by simp only [not_le]; exact hp)]
  dsimp only
  have key := visibleCount_lt_jetSpawnLoop (8/5 + s.airPressure * (21/5)) (max 25 (Int.toNat ⌊(1/2 + s.flowIntensity) * s.airPressure * 120⌋)) { s with waterB := s.waterB - min (s.flowRate * (5/4) * s.flowIntensity * s.airPressure * dt) s.waterB } (lt_of_lt_of_le (by norm_num) (le_max_left 25 _)) hfree
  exact key

/-- For in-range levels the code's pressure (`Math.min(1, ·)` on the inflow
factor) agrees with the spec's formula (`clamp01` on the inflow factor). -/
lemma updateAirPressure_spec (s : FState) (ha1 : s.waterA ≤ 1) (hc0 : 0 ≤ s.waterC) :
    (updateAirPressure s).airPressure =
      specPressure s.waterA s.waterB s.waterC s.airLineConnected := by
  unfold updateAirPressure specPressure clamp01
  dsimp only
  rw [max_eq_right (le_min zero_le_one (by linarith : (0:ℚ) ≤ (1 - s.waterA) + s.waterC))]


/-! ## Claim theorems -/

/-- C1 (amended): over one `update` tick of an active engine with in-range
levels and nonnegative rate factors, the sum `waterA + waterB + waterC`
changes by exactly `riserLoss` — the volume the pressurized riser step debits
from `B` without crediting any vessel.  The drain reroute, the generic hose
passes and a possible auto-flip swap all conserve the sum, so the sum is
conserved in a tick if and only if the riser step moves no water (for
example when `pressure ≤ 0.05`); when the riser fires, volume is destroyed. -/
theorem heron_c1 (dt : ℚ) (s : FState) (hact : s.isActive = true)
    (hr : LevelsInRange s) (hdt : 0 ≤ dt) (hfr : 0 ≤ s.flowRate)
    (hfi : 0 ≤ s.flowIntensity) (hpr : 0 ≤ s.airPressure) :
    levelSum (update dt s) = levelSum s - riserLoss s dt :=
  levelSum_update dt s hact hr hdt hfr hfi hpr

theorem heron_c1_witness :
    levelSum (update 1 stateDefault) = levelSum stateDefault - riserLoss stateDefault 1 :=
  heron_c1 1 stateDefault rfl (by norm_num [LevelsInRange, stateDefault, mkState])
    (by norm_num) (by norm_num [stateDefault, mkState])
    (by norm_num [stateDefault, mkState]) (by norm_num [stateDefault, mkState])

/-- C1 counterexample: with only the three canonical paths connected, no flip
and no reset in the tick, one `update` strictly decreases the level sum
(by the exact amount 1/128, far beyond floating-point tolerance): pressurized
riser flow leaves `B` but is credited nowhere. -/
theorem heron_c1_counterexample :
    levelSum (update 1 statePressurized) ≠ levelSum statePressurized := by
  rw [levelSum_update 1 statePressurized rfl
    (by norm_num [LevelsInRange, statePressurized, mkState]) (by norm_num)
    (by norm_num [statePressurized, mkState]) (by norm_num [statePressurized, mkState])
    (by norm_num [statePressurized, mkState])]
  have hloss : riserLoss statePressurized 1 = 1/128 := by
    norm_num [riserLoss, drainMove, hasDrain_canonical, hasRiser_canonical,
      statePressurized, mkState, min_def]
  rw [hloss]
  intro h
  linarith

/-- C2: for every `dt` (including negative) and every stored state of the
other numeric fields, a tick of an active engine leaves all three vessel
levels and the pressure in `[0, 1]` (only the never-clamped open vessel `A`
must start in range), and `setFlowIntensity` clamps any input into `[0, 1]`
rather than rejecting it.  In the exact-rational embedding no NaN exists;
all operations are total. -/
theorem heron_c2 (dt v : ℚ) (s : FState) (hact : s.isActive = true)
    (ha0 : 0 ≤ s.waterA) (ha1 : s.waterA ≤ 1) :
    ((0 ≤ (update dt s).waterA ∧ (update dt s).waterA ≤ 1) ∧
      (0 ≤ (update dt s).waterB ∧ (update dt s).waterB ≤ 1) ∧
      (0 ≤ (update dt s).waterC ∧ (update dt s).waterC ≤ 1) ∧
      (0 ≤ (update dt s).airPressure ∧ (update dt s).airPressure ≤ 1)) ∧
    (0 ≤ (setFlowIntensity v s).flowIntensity ∧ (setFlowIntensity v s).flowIntensity ≤ 1) :=
  ⟨update_bounds dt s hact ha0 ha1, clamp_bounds v⟩

theorem heron_c2_witness :
    ((0 ≤ (update (-3) stateDefault).waterA ∧ (update (-3) stateDefault).waterA ≤ 1) ∧
      (0 ≤ (update (-3) stateDefault).waterB ∧ (update (-3) stateDefault).waterB ≤ 1) ∧
      (0 ≤ (update (-3) stateDefault).waterC ∧ (update (-3) stateDefault).waterC ≤ 1) ∧
      (0 ≤ (update (-3) stateDefault).airPressure ∧
        (update (-3) stateDefault).airPressure ≤ 1)) ∧
    (0 ≤ (setFlowIntensity 7 stateDefault).flowIntensity ∧
      (setFlowIntensity 7 stateDefault).flowIntensity ≤ 1) :=
  heron_c2 (-3) 7 stateDefault rfl (by norm_num [stateDefault, mkState])
    (by norm_num [stateDefault, mkState])

/-- C3 (amended): the dedicated drain step debits the middle vessel `B` and
credits the reservoir `C` by the same clamped amount
`min(0.6 · flowRate · intensity · dt, B, 1 − C)` and leaves the Top vessel's
`waterLevels.A` unchanged; but over the whole tick `A` is not held fixed,
because the generic per-hose pass also processes the canonical drain and
riser hoses and moves water out of and into `A` (see the counterexample). -/
theorem heron_c3 (dt : ℚ) (s : FState) (hd : hasDrainHose s.hoses = true) :
    (drainStage dt s).waterA = s.waterA ∧
    (drainStage dt s).waterB = s.waterB -
      min (3/5 * s.flowRate * s.flowIntensity * dt) (min s.waterB (1 - s.waterC)) ∧
    (drainStage dt s).waterC = s.waterC +
      min (3/5 * s.flowRate * s.flowIntensity * dt) (min s.waterB (1 - s.waterC)) := by
  rw [drainStage_eq]
  unfold drainMove
  rw [if_pos hd]
  exact ⟨rfl, rfl, rfl⟩

theorem heron_c3_witness :
    (drainStage 1 stateDefault).waterA = stateDefault.waterA ∧
    (drainStage 1 stateDefault).waterB = stateDefault.waterB -
      min (3/5 * stateDefault.flowRate * stateDefault.flowIntensity * 1)
        (min stateDefault.waterB (1 - stateDefault.waterC)) ∧
    (drainStage 1 stateDefault).waterC = stateDefault.waterC +
      min (3/5 * stateDefault.flowRate * stateDefault.flowIntensity * 1)
        (min stateDefault.waterB (1 - stateDefault.waterC)) :=
  heron_c3 1 stateDefault (by decide)

/-- C3 counterexample: starting from the constructor state (canonical paths,
default levels and intensity), one tick moves `waterLevels.A` from 0.75 to
0.75675: the generic hose pass drains `A` along P1 and refills it along P3,
so the Top vessel's level is not unchanged. -/
theorem heron_c3_counterexample :
    (update 1 stateDefault).waterA ≠ stateDefault.waterA := by
  have hval : (update 1 stateDefault).waterA = 3027/4000 := by
    norm_num [update, tickCore, updateWaterFlow, hosesStage, airLineStage, riserStage,
      drainStage, hasDrain_canonical, hasRiser_canonical, hasAirLine_canonical,
      hoseStep_airLineHose, hoseStep_drainHose, hoseStep_riserHose, hoseMoved_drainHose,
      hoseMoved_riserHose, updateAirPressure, updateParticles, updateParticlesGo,
      updateWaterLevels, checkAutoFlip, flipSystem, animateFlip, stateDefault, mkState,
      FState.level, FState.setLevel, min_def, max_def]
  rw [hval]
  norm_num [stateDefault, mkState]

/-- C4 (amended): with the riser path absent, a flow update never touches the
particle pool, so no jet particles are emitted; and any jet emission requires
the riser path connected in the current tick, pressure above 0.05, and the
`airLineConnected` flag set — but that flag is assigned only after the
emission step, so it reflects the air line's connectivity as of the previous
flow update, not the current tick (see the counterexample). -/
theorem heron_c4 (dt : ℚ) (s : FState) :
    (hasRiserHose s.hoses = false → (updateWaterFlow dt s).particles = s.particles) ∧
    (jetEmitted dt s →
      hasRiserHose s.hoses = true ∧ s.airLineConnected = true ∧ 1/20 < s.airPressure) :=
  ⟨updateWaterFlow_particles_no_riser dt s, jetEmitted_conditions dt s⟩

theorem heron_c4_witness :
    (updateWaterFlow 1 trigReservoirState).particles = trigReservoirState.particles :=
  (heron_c4 1 trigReservoirState).1 rfl

/-- C4 counterexample: in `staleAirState` the air-line path is not connected
during the tick (only the riser hose is registered), yet the flow update
emits a jet particle, because the `airLineConnected` flag still holds the
previous tick's value. -/
theorem heron_c4_counterexample :
    hasAirLineHose staleAirState.hoses = false ∧ jetEmitted 1 staleAirState := by
  refine ⟨rfl, jetEmitted_when 1 staleAirState rfl rfl ?_ ?_ ?_ rfl rfl rfl⟩
  · norm_num [staleAirState, mkState]
  · norm_num [staleAirState, mkState]
  · norm_num [staleAirState, mkState, min_def]

/-- C5 (amended): `flipSystem` is a no-op while a flip is in progress;
otherwise it immediately — at initiation, not on completion — swaps the
`B` and `C` levels, zeroes the pressure, sets `active`, and starts the
fixed-duration transition; the completion step of the transition only snaps
the pivot rotation and clears the flipping flag, leaving levels and pressure
as the intervening ticks left them. -/
theorem heron_c5 (s : FState) :
    (s.isFlipping = true → flipSystem s = s) ∧
    (s.isFlipping = false → s.sideGroupPresent = true →
      (flipSystem s).waterB = s.waterC ∧ (flipSystem s).waterC = s.waterB ∧
      (flipSystem s).airPressure = 0 ∧ (flipSystem s).isActive = true ∧
      (flipSystem s).isFlipping = true) ∧
    (∀ endRot : ℚ, (flipFinish endRot s).isFlipping = false ∧
      (flipFinish endRot s).waterB = s.waterB ∧ (flipFinish endRot s).waterC = s.waterC ∧
      (flipFinish endRot s).airPressure = s.airPressure) := by
  refine ⟨flipSystem_of_flipping s, ?_, fun endRot => ⟨rfl, rfl, rfl, rfl⟩⟩
  intro h hsg
  obtain ⟨_, fb, fc, fp, fact, _⟩ := flipSystem_of_not_flipping s h
  exact ⟨fb, fc, fp, fact, flipSystem_isFlipping s h hsg⟩

theorem heron_c5_witness :
    flipSystem midFlipState = midFlipState ∧
    (flipSystem stateDefault).waterB = stateDefault.waterC ∧
    (flipFinish 1 stateDefault).isFlipping = false :=
  ⟨(heron_c5 midFlipState).1 rfl, ((heron_c5 stateDefault).2.1 rfl rfl).1,
    ((heron_c5 stateDefault).2.2 1).1⟩

/-- C5 counterexample: completing a flip from a mid-flip state neither resets
the pressure to 0 nor swaps the two side levels — those effects happened at
initiation, not on completion as the claim states. -/
theorem heron_c5_counterexample :
    (flipFinish 1 midFlipState).airPressure ≠ 0 ∧
    (flipFinish 1 midFlipState).waterB ≠ midFlipState.waterC := by
  constructor <;> norm_num [flipFinish, midFlipState, mkState]

/-- C6: when the engine is not already flipping (and the side group exists,
as it always does after construction), the auto-flip check transitions to
Flipping exactly when `waterC ≥ 0.98` or `waterB ≤ 0.02`; in particular a
single `update` call flips from `levelReservoir = 0.981` and from
`levelBasin = 0.01`. -/
theorem heron_c6 :
    (∀ s : FState, s.isFlipping = false → s.sideGroupPresent = true →
      ((checkAutoFlip s).isFlipping = true ↔ (49/50 ≤ s.waterC ∨ s.waterB ≤ 1/50))) ∧
    (update (1/60) trigReservoirState).isFlipping = true ∧
    (update (1/60) trigBasinState).isFlipping = true := by
  refine ⟨checkAutoFlip_isFlipping_iff, ?_, ?_⟩ <;>
  norm_num [update, tickCore, updateWaterFlow, hosesStage, airLineStage, riserStage,
    drainStage, hasDrainHose, hasRiserHose, hasAirLineHose, updateAirPressure,
    updateParticles, updateParticlesGo, updateWaterLevels, checkAutoFlip, flipSystem,
    animateFlip, trigReservoirState, trigBasinState, mkState, min_def, max_def]

theorem heron_c6_witness :
    (checkAutoFlip trigReservoirState).isFlipping = true ↔
      (49/50 ≤ trigReservoirState.waterC ∨ trigReservoirState.waterB ≤ 1/50) :=
  heron_c6.1 trigReservoirState rfl rfl

/-- C7: for levels with `waterA ≤ 1` and `waterC ≥ 0` (all in-range states),
the recomputed pressure equals the spec formula
`clamp01(sealFactor · (head · 2 + 0.5 · clamp01((1 − A) + C)))` — a pure
function of the three levels and the air-line flag — and always lies in
`[0, 1]`.  (The code's inflow factor uses `Math.min(1, ·)` without a lower
clamp; the two formulas agree whenever `(1 − A) + C ≥ 0`.) -/
theorem heron_c7 (s : FState) (ha1 : s.waterA ≤ 1) (hc0 : 0 ≤ s.waterC) :
    (updateAirPressure s).airPressure =
      specPressure s.waterA s.waterB s.waterC s.airLineConnected ∧
    0 ≤ (updateAirPressure s).airPressure ∧ (updateAirPressure s).airPressure ≤ 1 :=
  ⟨updateAirPressure_spec s ha1 hc0, (updateAirPressure_bounds s).1,
    (updateAirPressure_bounds s).2⟩

theorem heron_c7_witness :
    (updateAirPressure statePressurized).airPressure =
      specPressure statePressurized.waterA statePressurized.waterB
        statePressurized.waterC statePressurized.airLineConnected ∧
    0 ≤ (updateAirPressure statePressurized).airPressure ∧
    (updateAirPressure statePressurized).airPressure ≤ 1 :=
  heron_c7 statePressurized (by norm_num [statePressurized, mkState])
    (by norm_num [statePressurized, mkState])

/-- C8: `resetSystem`, invoked in any state including mid-flip, restores the
initial configured levels (`A = 0.75`, `B = 1.0`, `C = 0.26`), zeroes the
pressure, clears the flipping flag, and empties the hose list — so in
particular every non-canonical flow path is removed (the canonical ones are
removed too, to be re-seeded by the caller). -/
theorem heron_c8 (s : FState) :
    (resetSystem s).waterA = 3/4 ∧ (resetSystem s).waterB = 1 ∧
    (resetSystem s).waterC = 13/50 ∧ (resetSystem s).airPressure = 0 ∧
    (resetSystem s).isFlipping = false ∧ (resetSystem s).hoses = [] :=
  ⟨rfl, rfl, rfl, rfl, rfl, rfl⟩

/-- C9: in every reachable state at most `maxParticles = 400` pool slots are
alive simultaneously (the pool is fixed at construction and spawning only
flips visibility flags), and when no free slot exists both the jet spawn and
the splash spawn leave the pool exactly as it was — the request is silently
dropped. -/
theorem heron_c9 :
    (∀ s : FState, Reachable s → visibleCount s.particles ≤ 400) ∧
    (∀ s : FState, s.particles.any (fun p => !p.visible) = false →
      (createFountainParticles s).particles = s.particles ∧
      ∀ origin : Vec3, (spawnSplash origin s).particles = s.particles) := by
  constructor
  · intro s h
    exact le_trans (List.length_filter_le _ _) (le_of_eq (reachable_invariant h).2)
  · intro s h
    constructor
    · unfold createFountainParticles
      split
      · rfl
      split
      · rfl
      split
      · rfl
      · rw [jetSpawnLoop_of_full _ _ s h]
    · intro origin
      unfold spawnSplash
      have key := splashLoop_of_full origin (6 + ⌊s.rng s.rngIdx * 6⌋.toNat)
        { s with rngIdx := s.rngIdx + 1 } h
      rw [key]

theorem heron_c9_witness :
    visibleCount (initialState fun _ => 0).particles ≤ 400 ∧
    (createFountainParticles fullPoolState).particles = fullPoolState.particles :=
  ⟨heron_c9.1 _ (Reachable.init _), (heron_c9.2 fullPoolState rfl).1⟩

/-- C10: in every state reachable from construction by any sequence of the
engine's commands, `isActive` is `true` — no operation ever clears it (the
flip and the reset explicitly set it), so the inactive early-return in
`update` never runs and `getStatus` always reports `isActive = true`. -/
theorem heron_c10 :
    ∀ s : FState, Reachable s → s.isActive = true ∧ (getStatus s).isActive = true :=
  fun _ h => ⟨(reachable_invariant h).1, (reachable_invariant h).1⟩

theorem heron_c10_witness :
    (initialState fun _ => 0).isActive = true ∧
    (getStatus (initialState fun _ => 0)).isActive = true :=
  heron_c10 _ (Reachable.init _)

end HeronsFountain
